import Mathlib

set_option autoImplicit false

/-!
# auth-system: authentication and session-integrity core

A shallow embedding of the Express backend under `src/backend`:

* `config/config.js`            : `ProcessEnv`, `Config`, `config`
* `middleware/validation.js`    : `validateAuthInput`, `handleValidationErrors`
* `middleware/rateLimiter.js`   : `loginLimiter`, `registerLimiter`
* `middleware/authMiddleware.js`: `authMiddleware`
* `middleware/errorHandler.js`  : `errorHandler`
* `controllers/authController.js`: `register`, `login`, `logout`, `getUser`
* `routes/auth.js`              : `registerRoute`, `loginRoute`, `logoutRoute`, `meRoute`

Stateful code is written in state-passing style over `ServerState`; every route
returns an `Outcome` made of the HTTP response, the next server state and the
trace of collaborator calls (database, hasher, token library) it performed.
Logger calls are left out: they touch neither the response nor the modelled state.
-/

namespace AuthSystem

/-! ## JavaScript values -/

/-- JavaScript values a parsed request-body field can hold: `undefined` (absent
field), `null`, booleans, integer-valued numbers and strings. Objects, arrays and
fractional numbers are outside the model. -/
inductive JsVal where
  | undefined
  | null
  | bool (b : Bool)
  | num (n : Int)
  | str (s : String)
  deriving DecidableEq, Repr

/-- JavaScript truthiness, the test behind the operators `||` and `!`. -/
def JsVal.truthy : JsVal → Bool
  | .undefined => false
  | .null => false
  | .bool b => b
  | .num n => n != 0
  | .str s => s != ""

/-- Truthiness of an optional string (`undefined` and the empty string are falsy). -/
def strTruthy : Option String → Bool
  | none => false
  | some s => s != ""

/-- The JavaScript expression `v || d` for an optional string `v` and a string default. -/
def strOr (v : Option String) (d : String) : String :=
  match v with
  | some s => if s != "" then s else d
  | none => d

/-! ## config/config.js -/

/-- The environment variables read by the backend. `BCRYPT_ROUNDS` holds the value of
`parseInt(process.env.BCRYPT_ROUNDS, 10)`, with `none` standing for `NaN`. -/
structure ProcessEnv where
  NODE_ENV : Option String
  JWT_SECRET : Option String
  JWT_EXPIRY : Option String
  BCRYPT_ROUNDS : Option Int
  deriving DecidableEq, Repr

/-- The `JWT` block of the configuration. -/
structure JwtConfig where
  SECRET : String
  EXPIRY : String
  deriving DecidableEq, Repr

/-- The `SECURITY` block of the configuration. -/
structure SecurityConfig where
  BCRYPT_ROUNDS : Int
  PASSWORD_MIN_LENGTH : Nat
  PASSWORD_MAX_LENGTH : Nat
  EMAIL_MAX_LENGTH : Nat
  deriving DecidableEq, Repr

/-- The `RATE_LIMIT` block of the configuration. -/
structure RateLimitConfig where
  LOGIN_WINDOW_MS : Nat
  LOGIN_MAX_ATTEMPTS : Nat
  REGISTER_WINDOW_MS : Nat
  REGISTER_MAX_ATTEMPTS : Nat
  deriving DecidableEq, Repr

/-- The object exported by `config/config.js` (the fields the core reads). -/
structure Config where
  NODE_ENV : String
  JWT : JwtConfig
  SECURITY : SecurityConfig
  RATE_LIMIT : RateLimitConfig
  deriving DecidableEq, Repr

/-- The configuration object computed from the process environment
(`config/config.js`, lines 3-34). -/
def config (penv : ProcessEnv) : Config :=
  { NODE_ENV := strOr penv.NODE_ENV "development"
    JWT :=
      { SECRET := strOr penv.JWT_SECRET "your_super_secret_key_change_in_production"
        EXPIRY := strOr penv.JWT_EXPIRY "30m" }
    SECURITY :=
      { BCRYPT_ROUNDS :=
          match penv.BCRYPT_ROUNDS with
          | some n => if n != 0 then n else 10
          | none => 10
        PASSWORD_MIN_LENGTH := 6
        PASSWORD_MAX_LENGTH := 128
        EMAIL_MAX_LENGTH := 255 }
    RATE_LIMIT :=
      { LOGIN_WINDOW_MS := 15 * 60 * 1000
        LOGIN_MAX_ATTEMPTS := 5
        REGISTER_WINDOW_MS := 60 * 60 * 1000
        REGISTER_MAX_ATTEMPTS := 10 } }

/-! ## HTTP requests and responses -/

/-- An incoming request: the two body fields the core reads, the token cookie, the
`Authorization` header, the source address and the value of `Date.now()`
(milliseconds) while the request is handled. -/
structure Request where
  email : JsVal
  password : JsVal
  cookieToken : Option String
  authorization : Option String
  ip : String
  now : Nat
  deriving DecidableEq, Repr

/-- The argument handed to the function `ipKeyGenerator` of express-rate-limit: an
address string or, as `loginLimiter` does, the whole request object. -/
inductive KeyArg where
  | address (ip : String)
  | request (req : Request)
  deriving DecidableEq, Repr

/-- Scalar JSON values of response bodies. -/
inductive JVal where
  | str (s : String)
  | num (n : Int)
  deriving DecidableEq, Repr

/-- The value of a top-level field of a response body: a scalar, an object of
scalars or an array of objects of scalars. -/
inductive JField where
  | val (v : JVal)
  | obj (fields : List (String × JVal))
  | arr (items : List (List (String × JVal)))
  deriving DecidableEq, Repr

/-- A JSON response body: its fields in order. A field whose JavaScript value is
`undefined` is absent, as `JSON.stringify` drops it. -/
abbrev JBody := List (String × JField)

/-- The options of the session cookie. -/
structure Cookie where
  name : String
  value : String
  httpOnly : Bool
  secure : Bool
  sameSite : String
  maxAge : Nat
  deriving DecidableEq, Repr

/-- Cookie instructions of a response: `res.cookie` and `res.clearCookie`. -/
inductive CookieOp where
  | set (c : Cookie)
  | clear (name : String)
  deriving DecidableEq, Repr

/-- An HTTP response: status, JSON body, cookie instructions. -/
structure Response where
  status : Nat
  body : JBody
  cookies : List CookieOp
  deriving DecidableEq, Repr

/-- The value of a top-level body field, if present. -/
def Response.field (r : Response) (k : String) : Option JField :=
  (r.body.find? (fun p => p.1 == k)).map (fun p => p.2)

/-! ## Errors -/

/-- Modelled from the spec: `utils/AppError.js` is not among the sources. The class is
used as `new AppError(message, statusCode, errorCode)` with the error code optional
(section 9: an ad hoc error shape with optional fields). The `stack` of a
JavaScript error records where it was constructed. -/
structure AppError where
  message : String
  statusCode : Option Nat
  errorCode : Option String
  stack : Option String
  deriving DecidableEq, Repr

/-- The expression `new AppError(message, statusCode, errorCode)` evaluated at the
source location `site`. -/
def newAppError (message : String) (statusCode : Nat) (errorCode : Option String)
    (site : String) : AppError :=
  { message := message
    statusCode := some statusCode
    errorCode := errorCode
    stack := some ("Error: " ++ message ++ "\n    at " ++ site) }

/-- A value thrown inside a `try` block: an `AppError`, one of the two error
classes of jsonwebtoken the code tests for, or any other `Error` with its message
and stack. -/
inductive Thrown where
  | app (e : AppError)
  | tokenExpired (message : String)
  | jsonWebToken (message : String)
  | error (message : String) (stack : String)
  deriving DecidableEq, Repr

/-- The test `error instanceof AppError`. -/
def Thrown.isAppError : Thrown → Bool
  | .app _ => true
  | _ => false

/-- The function `errorHandler` of `middleware/errorHandler.js` (lines 4-34). The
`stack` field is spread into the body only when `process.env.NODE_ENV` is
`development`. -/
def errorHandler (penv : ProcessEnv) (err : AppError) : Response :=
  let statusCode : Nat :=
    match err.statusCode with
    | some n => if n != 0 then n else 500
    | none => 500
  let message : String := if err.message != "" then err.message else "Internal Server Error"
  let errorCode : String := strOr err.errorCode "INTERNAL_ERROR"
  { status := statusCode
    body :=
      [("error", JField.val (JVal.str message)),
       ("statusCode", JField.val (JVal.num statusCode)),
       ("errorCode", JField.val (JVal.str errorCode))] ++
      (if penv.NODE_ENV == some "development" then
        match err.stack with
        | some s => [("stack", JField.val (JVal.str s))]
        | none => []
      else [])
    cookies := [] }

/-! ## middleware/validation.js -/

/-- The white space of the JavaScript regular expression class `\s`, which the
`trim` sanitizer of validator.js strips from both ends. -/
def isJsSpace (c : Char) : Bool :=
  let n := c.toNat
  (9 ≤ n && n ≤ 13) || n == 32 || n == 160 || n == 0x1680 || (0x2000 ≤ n && n ≤ 0x200a) ||
    n == 0x2028 || n == 0x2029 || n == 0x202f || n == 0x205f || n == 0x3000 || n == 0xfeff

/-- The sanitizer `trim()`: white space removed from both ends. -/
def trim (s : String) : String :=
  String.mk ((s.data.dropWhile isJsSpace).reverse.dropWhile isJsSpace).reverse

/-- The string express-validator hands to validators and sanitizers for a field
value: absent and null fields become the empty string, other values go through
`String(value)`. The rendering of numbers, `numberToString`, is JavaScript's own
and a parameter of the model. -/
def fieldToString (numberToString : Int → String) : JsVal → String
  | .undefined => ""
  | .null => ""
  | .bool b => if b then "true" else "false"
  | .num n => numberToString n
  | .str s => s

/-- One entry of `validationResult(req).array()`. -/
structure ValidationError where
  param : String
  msg : String
  deriving DecidableEq, Repr

/-- The chain `body('email').trim().isEmail()...isLength({ max })` of
`validateAuthInput` (lines 5-10): the sanitized value written back to
`req.body.email` and the errors of the validators that failed. The predicate
`isEmail` is the validator.js function of that name; the length of a string is
counted in characters (code points). -/
def validateEmail (cfg : Config) (isEmail : String → Bool) (numberToString : Int → String)
    (v : JsVal) : String × List ValidationError :=
  let s := trim (fieldToString numberToString v)
  (s,
    (if isEmail s then [] else [{ param := "email", msg := "Invalid email address" }]) ++
    (if s.length ≤ cfg.SECURITY.EMAIL_MAX_LENGTH then []
     else [{ param := "email",
             msg := "Email must not exceed " ++ toString cfg.SECURITY.EMAIL_MAX_LENGTH ++
               " characters" }]))

/-- The chain `body('password').isLength({ min, max })` of `validateAuthInput`
(lines 12-19). The validator measures the string form of the value; the field
itself is left as submitted, whatever its type. -/
def validatePassword (cfg : Config) (numberToString : Int → String) (v : JsVal) :
    List ValidationError :=
  let s := fieldToString numberToString v
  if cfg.SECURITY.PASSWORD_MIN_LENGTH ≤ s.length ∧ s.length ≤ cfg.SECURITY.PASSWORD_MAX_LENGTH
  then []
  else [{ param := "password",
          msg := "Password must be between " ++ toString cfg.SECURITY.PASSWORD_MIN_LENGTH ++
            " and " ++ toString cfg.SECURITY.PASSWORD_MAX_LENGTH ++ " characters" }]

/-- The array `validateAuthInput`: both chains run in order. The result is the
string the sanitizer leaves in `req.body.email`, together with all errors. -/
def validateAuthInput (cfg : Config) (isEmail : String → Bool)
    (numberToString : Int → String) (req : Request) : String × List ValidationError :=
  let r := validateEmail cfg isEmail numberToString req.email
  (r.1, r.2 ++ validatePassword cfg numberToString req.password)

/-- The body of the 400 response of `handleValidationErrors` (lines 26-34). -/
def validationFailed (errors : List ValidationError) : Response :=
  { status := 400
    body :=
      [("error", JField.val (JVal.str "Validation failed")),
       ("details",
         JField.arr (errors.map (fun err =>
           [("field", JVal.str err.param), ("message", JVal.str err.msg)])))]
    cookies := [] }

/-- The middleware `handleValidationErrors` (lines 22-38): `none` stands for
the call of `next()`. -/
def handleValidationErrors (errors : List ValidationError) : Option Response :=
  if !errors.isEmpty then some (validationFailed errors) else none

/-! ## middleware/rateLimiter.js -/

/-- The record express-rate-limit keeps per key: hits counted in the current
window and the instant (milliseconds) at which the window ends. -/
structure Client where
  totalHits : Nat
  resetTime : Nat
  deriving DecidableEq, Repr

/-- The in-memory table of one limiter, from key to record. -/
abbrev HitStore := List (JsVal × Client)

/-- The record stored for a key, if any. -/
def HitStore.get (hs : HitStore) (key : JsVal) : Option Client :=
  (hs.find? (fun p => p.1 == key)).map (fun p => p.2)

/-- The table with the record of `key` replaced by `c`. -/
def HitStore.set (hs : HitStore) (key : JsVal) (c : Client) : HitStore :=
  (key, c) :: hs.filter (fun p => !(p.1 == key))

/-- The store operation `increment(key)` of express-rate-limit: a key without a
record, or whose window has ended, starts a new window of `windowMs`
milliseconds; the hit is then counted. -/
def increment (windowMs : Nat) (hs : HitStore) (key : JsVal) (now : Nat) : HitStore × Nat :=
  let c : Client :=
    match hs.get key with
    | some c => if c.resetTime ≤ now then { totalHits := 0, resetTime := now + windowMs } else c
    | none => { totalHits := 0, resetTime := now + windowMs }
  let c1 : Client := { c with totalHits := c.totalHits + 1 }
  (hs.set key c1, c1.totalHits)

/-- The middleware built by `rateLimit(options)`: skipped requests pass uncounted;
otherwise the hit is counted under the request key and the request is answered
by `handler` when the count exceeds `max`. The response `none` stands for `next()`. -/
def rateLimit (skip : Bool) (windowMs max : Nat) (key : JsVal) (handler : Response)
    (hs : HitStore) (now : Nat) : HitStore × Option Response :=
  if skip then (hs, none)
  else
    let r := increment windowMs hs key now
    if r.2 > max then (r.1, some handler) else (r.1, none)

/-- The `keyGenerator` of `loginLimiter` (lines 12-14):
`req.body?.email || ipKeyGenerator(req)`. The library function receives the whole
request object. -/
def loginKey (ipKeyGenerator : KeyArg → JsVal) (req : Request) : JsVal :=
  if req.email.truthy then req.email else ipKeyGenerator (.request req)

/-- The 429 response of a limiter `handler`. -/
def tooMany (message : String) : Response :=
  { status := 429
    body := [("error", JField.val (JVal.str message)), ("statusCode", JField.val (JVal.num 429))]
    cookies := [] }

/-- The middleware `loginLimiter` (lines 5-21). -/
def loginLimiter (cfg : Config) (ipKeyGenerator : KeyArg → JsVal) (hs : HitStore)
    (req : Request) : HitStore × Option Response :=
  rateLimit (cfg.NODE_ENV == "test") cfg.RATE_LIMIT.LOGIN_WINDOW_MS
    cfg.RATE_LIMIT.LOGIN_MAX_ATTEMPTS (loginKey ipKeyGenerator req)
    (tooMany "Too many login attempts. Please try again later.") hs req.now

/-- The middleware `registerLimiter` (lines 23-36); without a `keyGenerator` option
the library applies `ipKeyGenerator` to the source address `req.ip`. -/
def registerLimiter (cfg : Config) (ipKeyGenerator : KeyArg → JsVal) (hs : HitStore)
    (req : Request) : HitStore × Option Response :=
  rateLimit (cfg.NODE_ENV == "test") cfg.RATE_LIMIT.REGISTER_WINDOW_MS
    cfg.RATE_LIMIT.REGISTER_MAX_ATTEMPTS (ipKeyGenerator (.address req.ip))
    (tooMany "Too many registration attempts. Please try again later.") hs req.now

/-! ## The token library (jsonwebtoken) -/

/-- The decoded payload of a session token: the claims signed by `login`, the
issuance time `iat` and the expiry time `exp`, both in whole seconds. -/
structure Claims where
  id : Nat
  email : String
  iat : Nat
  exp : Nat
  deriving DecidableEq, Repr

/-- The content of a well-formed token: its payload and the secret its signature
was computed with. -/
structure SignedToken where
  claims : Claims
  key : String
  deriving DecidableEq, Repr

/-- The serialisation of tokens to strings, a parameter of the model. Strings that
`decode` maps to `none` are the unparseable ones. -/
structure JwtCodec where
  encode : SignedToken → String
  decode : String → Option SignedToken

/-- The time-span strings of the `ms` package that jsonwebtoken accepts for
`expiresIn`, in milliseconds: a decimal number followed by an optional unit.
Fractional and negative amounts are outside the model. -/
def ms (s : String) : Option Nat :=
  let cs := s.data
  let ds := cs.takeWhile Char.isDigit
  let u := String.mk (((cs.dropWhile Char.isDigit).dropWhile (fun c => c == ' ')).map Char.toLower)
  let n := ds.foldl (fun a c => 10 * a + (c.toNat - 48)) 0
  if ds.isEmpty then none
  else if u ∈ ["", "ms", "msec", "msecs", "millisecond", "milliseconds"] then some n
  else if u ∈ ["s", "sec", "secs", "second", "seconds"] then some (n * 1000)
  else if u ∈ ["m", "min", "mins", "minute", "minutes"] then some (n * 60000)
  else if u ∈ ["h", "hr", "hrs", "hour", "hours"] then some (n * 3600000)
  else if u ∈ ["d", "day", "days"] then some (n * 86400000)
  else if u ∈ ["w", "week", "weeks"] then some (n * 604800000)
  else if u ∈ ["y", "yr", "yrs", "year", "years"] then some (n * 31557600000)
  else none

/-- The clock instant jsonwebtoken reads, `Math.floor(Date.now() / 1000)`: whole
seconds, for `now` in milliseconds. -/
def clockTimestamp (now : Nat) : Nat := now / 1000

/-- The call `jwt.sign({ id, email }, secret, { expiresIn })` at clock `now`
(milliseconds): `iat` is the clock in whole seconds and `exp` is `iat` plus the
time span in seconds. -/
def jwtSign (codec : JwtCodec) (id : Nat) (email : String) (secret : String)
    (expiresIn : String) (now : Nat) : Except Thrown String :=
  match ms expiresIn with
  | none =>
    .error (Thrown.error
      "expiresIn should be a number of seconds or string representing a timespan" "")
  | some span =>
    let iat := clockTimestamp now
    .ok (codec.encode
      { claims := { id := id, email := email, iat := iat, exp := iat + span / 1000 }
        key := secret })

/-- The call `jwt.verify(token, secret)` at clock `now` (milliseconds): an
unparseable token or a signature made with another secret throws
`JsonWebTokenError`; a token whose `exp` the clock (in whole seconds) has
reached throws `TokenExpiredError`; otherwise the payload is returned. -/
def jwtVerify (codec : JwtCodec) (token : String) (secret : String) (now : Nat) :
    Except Thrown Claims :=
  match codec.decode token with
  | none => .error (Thrown.jsonWebToken "jwt malformed")
  | some t =>
    if t.key != secret then .error (Thrown.jsonWebToken "invalid signature")
    else if clockTimestamp now ≥ t.claims.exp then .error (Thrown.tokenExpired "jwt expired")
    else .ok t.claims

/-! ## Server state, collaborators and traces -/

/-- A row of the table `users`. -/
structure User where
  id : Nat
  email : String
  password_hash : String
  deriving DecidableEq, Repr

/-- The process-wide state: the table `users` with its next `AUTO_INCREMENT` value
and the tables of the two rate limiters. -/
structure ServerState where
  users : List User
  nextId : Nat
  loginHits : HitStore
  registerHits : HitStore
  deriving DecidableEq, Repr

/-- The collaborators of one run: the validator.js predicate `isEmail`, the
rendering `String(n)` of a number, the key
function `ipKeyGenerator` of express-rate-limit, the bcryptjs functions `hash` and
`compare` (either may throw), the exceptions, if any, thrown by
`pool.getConnection()` and by the `SELECT` and `INSERT` statements, and the token
serialisation. -/
structure Env where
  isEmail : String → Bool
  numberToString : Int → String
  ipKeyGenerator : KeyArg → JsVal
  bcryptHash : JsVal → Int → Except Thrown String
  bcryptCompare : JsVal → String → Except Thrown Bool
  connectFault : Option Thrown
  selectFault : Option Thrown
  insertFault : Option Thrown
  codec : JwtCodec

/-- The calls a request makes, in order: entering a controller (with `req.user`),
and the calls to the database, the hasher and the token library. -/
inductive Event where
  | controller (name : String) (user : Option Claims)
  | getConnection
  | select (email : String)
  | hash (password : JsVal) (rounds : Int)
  | insert (email : String) (hash : String)
  | compare (password : JsVal) (hash : String)
  | sign (id : Nat) (email : String)
  | verify (token : String)
  | release
  deriving DecidableEq, Repr

/-- How a handler ends: it sends a response or calls `next(err)`. -/
inductive Reply where
  | sent (r : Response)
  | error (e : AppError)
  deriving DecidableEq, Repr

/-- The result of running a controller: how it ended, the next state, the calls made. -/
structure Run where
  reply : Reply
  state : ServerState
  trace : List Event
  deriving DecidableEq, Repr

/-- The result of a route: the response sent, the next state, the calls made. -/
structure Outcome where
  response : Response
  state : ServerState
  trace : List Event
  deriving DecidableEq, Repr

/-- The end of the Express pipeline (`server.js`, line 48): an error passed to
`next` is answered by `errorHandler`. -/
def Run.finish (penv : ProcessEnv) (r : Run) : Outcome :=
  { response :=
      match r.reply with
      | .sent resp => resp
      | .error e => errorHandler penv e
    state := r.state
    trace := r.trace }

/-! ## controllers/authController.js -/

/-- The `catch` block shared by `register` and `login` (lines 46-57, 120-131): an
`AppError` is passed on as it is, anything else becomes a fresh 500 `AppError`
with the fixed message `failMessage`, built at `site`. -/
def catchError (failMessage : String) (site : String) (t : Thrown) : AppError :=
  match t with
  | .app e => e
  | _ => newAppError failMessage 500 none site

/-- The rows of `SELECT ... FROM users WHERE email = ?`. -/
def selectByEmail (users : List User) (email : String) : List User :=
  users.filter (fun u => u.email == email)

/-- The controller `register` (lines 8-63). Here `email` is `req.body.email`, the
string left by the sanitizer of `validateAuthInput`, which precedes the controller
on its route, and `password` is `req.body.password`. -/
def register (penv : ProcessEnv) (env : Env) (st : ServerState) (email : String)
    (password : JsVal) : Run :=
  let fail (t : Thrown) (tr : List Event) : Run :=
    { reply := .error (catchError "Registration failed" "authController.js:57" t)
      state := st
      trace := Event.controller "register" none :: tr }
  match env.connectFault with
  | some t => fail t [.getConnection]
  | none =>
    match env.selectFault with
    | some t => fail t [.getConnection, .select email, .release]
    | none =>
      let rows := selectByEmail st.users email
      if rows.length > 0 then
        fail (.app (newAppError "User with this email already exists" 409 (some "USER_EXISTS")
          "authController.js:23")) [.getConnection, .select email, .release]
      else
        match env.bcryptHash password (config penv).SECURITY.BCRYPT_ROUNDS with
        | .error t =>
          fail t [.getConnection, .select email,
            .hash password (config penv).SECURITY.BCRYPT_ROUNDS, .release]
        | .ok hashedPassword =>
          match env.insertFault with
          | some t =>
            fail t [.getConnection, .select email,
              .hash password (config penv).SECURITY.BCRYPT_ROUNDS,
              .insert email hashedPassword, .release]
          | none =>
            { reply := .sent
                { status := 201
                  body :=
                    [("message", JField.val (JVal.str "User successfully registered")),
                     ("userId", JField.val (JVal.num st.nextId))]
                  cookies := [] }
              state :=
                { st with
                  users := st.users ++
                    [{ id := st.nextId, email := email, password_hash := hashedPassword }]
                  nextId := st.nextId + 1 }
              trace :=
                [.controller "register" none, .getConnection, .select email,
                 .hash password (config penv).SECURITY.BCRYPT_ROUNDS,
                 .insert email hashedPassword, .release] }

/-- The controller `login` (lines 65-137), with `email`, `password` as in `register`
and `now` the value of `Date.now()` when the token is signed. -/
def login (penv : ProcessEnv) (env : Env) (st : ServerState) (email : String)
    (password : JsVal) (now : Nat) : Run :=
  let fail (t : Thrown) (tr : List Event) : Run :=
    { reply := .error (catchError "Login failed" "authController.js:131" t)
      state := st
      trace := Event.controller "login" none :: tr }
  match env.connectFault with
  | some t => fail t [.getConnection]
  | none =>
    match env.selectFault with
    | some t => fail t [.getConnection, .select email, .release]
    | none =>
      match selectByEmail st.users email with
      | [] =>
        fail (.app (newAppError "Invalid email or password" 401 (some "INVALID_CREDENTIALS")
          "authController.js:79")) [.getConnection, .select email, .release]
      | user :: _ =>
        match env.bcryptCompare password user.password_hash with
        | .error t =>
          fail t [.getConnection, .select email, .compare password user.password_hash, .release]
        | .ok isPasswordValid =>
          if !isPasswordValid then
            fail (.app (newAppError "Invalid email or password" 401
              (some "INVALID_CREDENTIALS") "authController.js:91"))
              [.getConnection, .select email, .compare password user.password_hash, .release]
          else
            match jwtSign env.codec user.id user.email (config penv).JWT.SECRET "30m" now with
            | .error t =>
              fail t [.getConnection, .select email, .compare password user.password_hash,
                .sign user.id user.email, .release]
            | .ok token =>
              { reply := .sent
                  { status := 200
                    body :=
                      [("message", JField.val (JVal.str "Successfully logged in")),
                       ("token", JField.val (JVal.str token)),
                       ("user", JField.obj
                         [("id", JVal.num user.id), ("email", JVal.str user.email)])]
                    cookies :=
                      [.set
                        { name := "token"
                          value := token
                          httpOnly := true
                          secure := (config penv).NODE_ENV == "production"
                          sameSite := "strict"
                          maxAge := 30 * 60 * 1000 }] }
                state := st
                trace :=
                  [.controller "login" none, .getConnection, .select email,
                   .compare password user.password_hash, .sign user.id user.email, .release] }

/-- The controller `logout` (lines 139-159), run with `req.user`. Reading
`req.user.id` for the log line throws when `req.user` is not set. -/
def logout (st : ServerState) (user : Option Claims) : Run :=
  match user with
  | some _ =>
    { reply := .sent
        { status := 200
          body := [("message", JField.val (JVal.str "Successfully logged out"))]
          cookies := [.clear "token"] }
      state := st
      trace := [.controller "logout" user] }
  | none =>
    { reply := .error (newAppError "Logout failed" 500 none "authController.js:157")
      state := st
      trace := [.controller "logout" user] }

/-- The controller `getUser` (lines 161-185), run with `req.user`. -/
def getUser (st : ServerState) (user : Option Claims) : Run :=
  match user with
  | none =>
    { reply := .error (newAppError "Not authorized" 401 (some "NOT_AUTHORIZED")
        "authController.js:164")
      state := st
      trace := [.controller "getUser" user] }
  | some u =>
    { reply := .sent
        { status := 200
          body := [("user", JField.obj [("id", JVal.num u.id), ("email", JVal.str u.email)])]
          cookies := [] }
      state := st
      trace := [.controller "getUser" user] }

/-! ## middleware/authMiddleware.js -/

/-- The method `String.prototype.replace(pattern, replacement)` for a string
pattern, on lists of characters: the first occurrence only is replaced. -/
def replaceFirstChars (pat rep : List Char) : List Char → List Char
  | [] => if pat.isEmpty then rep else []
  | c :: cs =>
    if pat.isPrefixOf (c :: cs) then rep ++ (c :: cs).drop pat.length
    else c :: replaceFirstChars pat rep cs

/-- The call `s.replace(pat, rep)` for a string pattern. -/
def replaceFirst (s pat rep : String) : String :=
  String.mk (replaceFirstChars pat.data rep.data s.data)

/-- The expression
`req.cookies?.token || req.headers.authorization?.replace('Bearer ', '')`
(lines 9-10). -/
def extractToken (req : Request) : Option String :=
  if strTruthy req.cookieToken then req.cookieToken
  else req.authorization.map (fun h => replaceFirst h "Bearer " "")

/-- The result of `authMiddleware`: `next()` with `req.user` set, or `next(err)`. -/
structure AuthResult where
  user : Except AppError Claims
  trace : List Event

/-- The `try` block of `authMiddleware` (lines 9-24): the decoded claims stored in
`req.user`, or the value thrown, with the calls made. -/
def authTry (penv : ProcessEnv) (env : Env) (req : Request) :
    Except Thrown Claims × List Event :=
  match extractToken req with
  | none =>
    (.error (.app (newAppError "Token not found" 401 (some "NO_TOKEN") "authMiddleware.js:17")),
      [])
  | some token =>
    if token == "" then
      (.error (.app (newAppError "Token not found" 401 (some "NO_TOKEN")
        "authMiddleware.js:17")), [])
    else (jwtVerify env.codec token (config penv).JWT.SECRET req.now, [.verify token])

/-- The `catch` block of `authMiddleware` (lines 25-51): the error passed to `next`. -/
def authCatch (t : Thrown) : AppError :=
  match t with
  | .tokenExpired _ => newAppError "Token expired" 401 (some "TOKEN_EXPIRED") "authMiddleware.js:31"
  | .jsonWebToken _ => newAppError "Invalid token" 401 (some "INVALID_TOKEN") "authMiddleware.js:39"
  | .app e => e
  | .error _ _ => newAppError "Authentication failed" 500 none "authMiddleware.js:50"

/-- The middleware `authMiddleware` (lines 7-52). -/
def authMiddleware (penv : ProcessEnv) (env : Env) (req : Request) : AuthResult :=
  let r := authTry penv env req
  { user :=
      match r.1 with
      | .ok decoded => .ok decoded
      | .error t => .error (authCatch t)
    trace := r.2 }

/-! ## routes/auth.js -/

/-- The route `POST /register` (lines 9-15): `registerLimiter`, `validateAuthInput`,
`handleValidationErrors`, `authController.register`. -/
def registerRoute (penv : ProcessEnv) (env : Env) (st : ServerState) (req : Request) :
    Outcome :=
  let lim := registerLimiter (config penv) env.ipKeyGenerator st.registerHits req
  let st1 : ServerState := { st with registerHits := lim.1 }
  match lim.2 with
  | some resp => { response := resp, state := st1, trace := [] }
  | none =>
    let v := validateAuthInput (config penv) env.isEmail env.numberToString req
    match handleValidationErrors v.2 with
    | some resp => { response := resp, state := st1, trace := [] }
    | none => (register penv env st1 v.1 req.password).finish penv

/-- The route `POST /login` (lines 17-23): `loginLimiter`, `validateAuthInput`,
`handleValidationErrors`, `authController.login`. -/
def loginRoute (penv : ProcessEnv) (env : Env) (st : ServerState) (req : Request) :
    Outcome :=
  let lim := loginLimiter (config penv) env.ipKeyGenerator st.loginHits req
  let st1 : ServerState := { st with loginHits := lim.1 }
  match lim.2 with
  | some resp => { response := resp, state := st1, trace := [] }
  | none =>
    let v := validateAuthInput (config penv) env.isEmail env.numberToString req
    match handleValidationErrors v.2 with
    | some resp => { response := resp, state := st1, trace := [] }
    | none => (login penv env st1 v.1 req.password req.now).finish penv

/-- A route guarded by `authMiddleware`: the controller runs only after `next()`. -/
def protectedRoute (controller : ServerState → Option Claims → Run) (penv : ProcessEnv)
    (env : Env) (st : ServerState) (req : Request) : Outcome :=
  let a := authMiddleware penv env req
  match a.user with
  | .error e => { response := errorHandler penv e, state := st, trace := a.trace }
  | .ok decoded =>
    let r := (controller st (some decoded)).finish penv
    { r with trace := a.trace ++ r.trace }

/-- The route `POST /logout` (lines 25-29). -/
def logoutRoute (penv : ProcessEnv) (env : Env) (st : ServerState) (req : Request) :
    Outcome :=
  protectedRoute logout penv env st req

/-- The route `GET /me` (lines 31-35). -/
def meRoute (penv : ProcessEnv) (env : Env) (st : ServerState) (req : Request) : Outcome :=
  protectedRoute getUser penv env st req

/-! ## Observations on responses, traces and runs -/

/-- A response body without the debug-only field `stack`. -/
def withoutStack (b : JBody) : JBody :=
  b.filter (fun p => p.1 != "stack")

/-- Whether a response body carries a field `stack`. -/
def hasStack (r : Response) : Bool :=
  r.body.any (fun p => p.1 == "stack")

/-- A reply that, when it is a response sent by the controller, has no `stack` field. -/
def Reply.sentWithoutStack : Reply → Prop
  | .sent r => hasStack r = false
  | .error _ => True

/-- Whether an event is the entry into a controller. -/
def Event.isController : Event → Bool
  | .controller _ _ => true
  | _ => false

/-- An outcome answered 401 without any controller having been entered. -/
def Outcome.rejected401 (o : Outcome) : Prop :=
  o.response.status = 401 ∧ ∀ ev ∈ o.trace, ev.isController = false

/-- The run of `register` in which a collaborator call of the `try` block throws
`t`: `pool.getConnection()`, the `SELECT`, `bcrypt.hash` or the `INSERT`, each
reached only when the calls before it returned (and the email was not found). -/
def registerThrows (penv : ProcessEnv) (env : Env) (st : ServerState) (email : String)
    (password : JsVal) (t : Thrown) : Prop :=
  env.connectFault = some t ∨
  (env.connectFault = none ∧ env.selectFault = some t) ∨
  (env.connectFault = none ∧ env.selectFault = none ∧ selectByEmail st.users email = [] ∧
    env.bcryptHash password (config penv).SECURITY.BCRYPT_ROUNDS = .error t) ∨
  (env.connectFault = none ∧ env.selectFault = none ∧ selectByEmail st.users email = [] ∧
    (∃ h, env.bcryptHash password (config penv).SECURITY.BCRYPT_ROUNDS = .ok h) ∧
    env.insertFault = some t)

/-- The run of `login` in which a store or hasher call of the `try` block throws
`t`: `pool.getConnection()`, the `SELECT` or `bcrypt.compare` on the row found. -/
def loginThrows (env : Env) (st : ServerState) (email : String) (password : JsVal)
    (t : Thrown) : Prop :=
  env.connectFault = some t ∨
  (env.connectFault = none ∧ env.selectFault = some t) ∨
  (env.connectFault = none ∧ env.selectFault = none ∧
    ∃ u rest, selectByEmail st.users email = u :: rest ∧
      env.bcryptCompare password u.password_hash = .error t)

/-- The wording of the header rule: `r` is `h` with only the first occurrence of
the substring `pat` removed, wherever it occurs; a string without an occurrence is
left as it is. An occurrence is a split `h = pre ++ pat ++ post`, and the first one
has the shortest `pre`. -/
def firstOccurrenceRemoved (pat h r : String) : Prop :=
  (∃ pre post : List Char,
      h.data = pre ++ pat.data ++ post ∧
      (∀ pre2 post2 : List Char, h.data = pre2 ++ pat.data ++ post2 →
        pre.length ≤ pre2.length) ∧
      r.data = pre ++ post) ∨
  ((∀ pre2 post2 : List Char, h.data ≠ pre2 ++ pat.data ++ post2) ∧ r = h)

/-- The outcomes of a sequence of `POST /login` requests handled in order. -/
def loginOutcomes (penv : ProcessEnv) (env : Env) : ServerState → List Request → List Outcome
  | _, [] => []
  | st, r :: rs =>
    loginRoute penv env st r :: loginOutcomes penv env (loginRoute penv env st r).state rs

/-- The server state after a sequence of `POST /login` requests handled in order. -/
def stateAfterLogins (penv : ProcessEnv) (env : Env) (st : ServerState) (reqs : List Request) :
    ServerState :=
  reqs.foldl (fun s r => (loginRoute penv env s r).state) st

/-- The token `login` signs for the row `u` at clock `now` under the configuration
of `penv`: payload `{ id, email }`, time span `30m`. -/
def issuedToken (penv : ProcessEnv) (u : User) (now : Nat) : SignedToken :=
  { claims :=
      { id := u.id, email := u.email, iat := clockTimestamp now,
        exp := clockTimestamp now + 1800 }
    key := (config penv).JWT.SECRET }

/-! ## A concrete instance of the collaborators

A small executable environment on which the routes can be evaluated. -/

/-- A stand-in for `isEmail`: one `@`, no white space, something on both sides. -/
def demoIsEmail (s : String) : Bool :=
  let cs := s.data
  cs.count '@' == 1 && !cs.any isJsSpace && cs.head? != some '@' && cs.getLast? != some '@'

/-- A stand-in for `bcrypt.hash`: the digest embeds the plaintext. Like bcryptjs
it takes strings only and fails with `Illegal arguments` on any other value. -/
def demoHash (password : JsVal) (_rounds : Int) : Except Thrown String :=
  match password with
  | .str s => .ok ("$2a$" ++ s)
  | _ => .error (Thrown.error "Illegal arguments" "")

/-- A stand-in for `bcrypt.compare`, matching `demoHash`. Like bcryptjs it takes
strings only and fails with `Illegal arguments` on any other value. -/
def demoCompare (password : JsVal) (hash : String) : Except Thrown Bool :=
  match password with
  | .str s => .ok (hash == "$2a$" ++ s)
  | _ => .error (Thrown.error "Illegal arguments" "")

/-- A stand-in for `String(n)`: decimal notation, which is what JavaScript prints
for the integers up to 2^53 that the inputs below use. -/
def demoNumberToString (n : Int) : String := toString n

/-- A stand-in for `ipKeyGenerator`: an address is its own key; a request object,
which is not an address, gives `undefined`. -/
def demoIpKeyGenerator : KeyArg → JsVal
  | .address ip => .str ip
  | .request _ => .undefined

/-- The fields of a dot-separated token string: `n` fields, then the rest. -/
def demoFields : Nat → List Char → List (List Char)
  | 0, cs => [cs]
  | n + 1, cs =>
    cs.takeWhile (fun c => c != '.') :: demoFields n ((cs.dropWhile (fun c => c != '.')).drop 1)

/-- A decimal numeral read as a number. -/
def demoNat (cs : List Char) : Option Nat :=
  if cs.isEmpty || !cs.all Char.isDigit then none
  else some (cs.foldl (fun a c => 10 * a + (c.toNat - 48)) 0)

/-- A token serialisation: `jwt.<key>.<id>.<iat>.<exp>.<email>`. -/
def demoCodec : JwtCodec :=
  { encode := fun t =>
      "jwt." ++ t.key ++ "." ++ toString t.claims.id ++ "." ++ toString t.claims.iat ++ "." ++
        toString t.claims.exp ++ "." ++ t.claims.email
    decode := fun s =>
      match demoFields 5 s.data with
      | [tag, key, id, iat, exp, email] =>
        match demoNat id, demoNat iat, demoNat exp with
        | some id, some iat, some exp =>
          if tag == "jwt".data then
            some
              { claims := { id := id, email := String.mk email, iat := iat, exp := exp }
                key := String.mk key }
          else none
        | _, _, _ => none
      | _ => none }

/-- An environment whose store never fails. -/
def demoEnv : Env :=
  { isEmail := demoIsEmail
    numberToString := demoNumberToString
    ipKeyGenerator := demoIpKeyGenerator
    bcryptHash := demoHash
    bcryptCompare := demoCompare
    connectFault := none
    selectFault := none
    insertFault := none
    codec := demoCodec }

/-- The environment `demoEnv` with a database whose connections fail with the error
of the given message and stack. -/
def demoEnvDown (message stack : String) : Env :=
  { demoEnv with connectFault := some (Thrown.error message stack) }

/-- A production process environment with secret `s3cret`. -/
def demoPenv : ProcessEnv :=
  { NODE_ENV := some "production", JWT_SECRET := some "s3cret", JWT_EXPIRY := none,
    BCRYPT_ROUNDS := none }

/-- An empty server. -/
def demoState : ServerState :=
  { users := [], nextId := 1, loginHits := [], registerHits := [] }

/-- A server with the single identity `a@x.com` registered with `secret1`. -/
def demoState1 : ServerState :=
  { users := [{ id := 1, email := "a@x.com", password_hash := "$2a$secret1" }]
    nextId := 2, loginHits := [], registerHits := [] }

/-- A request with the given body from address `10.0.0.1`, at clock `now`. -/
def demoReq (email password : String) (now : Nat) : Request :=
  { email := .str email, password := .str password, cookieToken := none,
    authorization := none, ip := "10.0.0.1", now := now }

/-- A request whose body carries the given email and a JSON number as password, from
address `10.0.0.1`, at clock `now`. -/
def demoNumReq (email : String) (password : Int) (now : Nat) : Request :=
  { email := .str email, password := .num password, cookieToken := none,
    authorization := none, ip := "10.0.0.1", now := now }

/-- A request to a protected route carrying a cookie token, at clock `now`. -/
def demoCookieReq (token : String) (now : Nat) : Request :=
  { email := .undefined, password := .undefined, cookieToken := some token,
    authorization := none, ip := "10.0.0.1", now := now }

/-- Six login requests for `a@x.com`, one per second from clock 0: five wrong
passwords, then the right one. -/
def demoLogins : List Request :=
  [demoReq "a@x.com" "wrong-1" 0, demoReq "a@x.com" "wrong-2" 1000,
   demoReq "a@x.com" "wrong-3" 2000, demoReq "a@x.com" "wrong-4" 3000,
   demoReq "a@x.com" "wrong-5" 4000, demoReq "a@x.com" "secret1" 5000]

/-- The process environment `demoPenv` with the token lifetime configured to one hour. -/
def demoPenvHour : ProcessEnv :=
  { NODE_ENV := some "production", JWT_SECRET := some "s3cret", JWT_EXPIRY := some "1h",
    BCRYPT_ROUNDS := none }

/-- Six login requests against the identity `a@x.com`, one per second from clock 0,
all with wrong passwords: five with the email as stored, the sixth with a leading
space before it. -/
def demoPaddedLogins : List Request :=
  [demoReq "a@x.com" "wrong-1" 0, demoReq "a@x.com" "wrong-2" 1000,
   demoReq "a@x.com" "wrong-3" 2000, demoReq "a@x.com" "wrong-4" 3000,
   demoReq "a@x.com" "wrong-5" 4000, demoReq " a@x.com" "wrong-6" 5000]

/-- A request to a protected route with no cookie and the given `Authorization`
header, at clock `now`. -/
def demoHeaderReq (header : String) (now : Nat) : Request :=
  { email := .undefined, password := .undefined, cookieToken := none,
    authorization := some header, ip := "10.0.0.1", now := now }

/-! ## Shared lemmas -/

theorem loginRoute_of_pass (penv : ProcessEnv) (env : Env) (st : ServerState) (req : Request)
    (hlim : (loginLimiter (config penv) env.ipKeyGenerator st.loginHits req).2 = none)
    (hval : (validateAuthInput (config penv) env.isEmail env.numberToString req).2 = []) :
    loginRoute penv env st req =
      (login penv env
        { st with loginHits := (loginLimiter (config penv) env.ipKeyGenerator st.loginHits req).1 }
        (trim (fieldToString env.numberToString req.email)) req.password req.now).finish penv := by
  unfold loginRoute
  simp only [hlim, hval, handleValidationErrors]
  rfl

theorem registerRoute_of_pass (penv : ProcessEnv) (env : Env) (st : ServerState)
    (req : Request)
    (hlim : (registerLimiter (config penv) env.ipKeyGenerator st.registerHits req).2 = none)
    (hval : (validateAuthInput (config penv) env.isEmail env.numberToString req).2 = []) :
    registerRoute penv env st req =
      (register penv env
        { st with
          registerHits :=
            (registerLimiter (config penv) env.ipKeyGenerator st.registerHits req).1 }
        (trim (fieldToString env.numberToString req.email)) req.password).finish penv := by
  unfold registerRoute
  simp only [hlim, hval, handleValidationErrors]
  rfl

theorem login_absent (penv : ProcessEnv) (env : Env) (st : ServerState) (email : String)
    (password : JsVal) (now : Nat)
    (hconn : env.connectFault = none) (hsel : env.selectFault = none)
    (habsent : selectByEmail st.users email = []) :
    login penv env st email password now =
      { reply := .error (newAppError "Invalid email or password" 401
          (some "INVALID_CREDENTIALS") "authController.js:79")
        state := st
        trace := [.controller "login" none, .getConnection, .select email, .release] } := by
  simp [login, hconn, hsel, habsent, catchError]

theorem login_mismatch (penv : ProcessEnv) (env : Env) (st : ServerState) (email : String)
    (password : JsVal) (now : Nat) (u : User) (rest : List User)
    (hconn : env.connectFault = none) (hsel : env.selectFault = none)
    (hpresent : selectByEmail st.users email = u :: rest)
    (hcmp : env.bcryptCompare password u.password_hash = .ok false) :
    login penv env st email password now =
      { reply := .error (newAppError "Invalid email or password" 401
          (some "INVALID_CREDENTIALS") "authController.js:91")
        state := st
        trace := [.controller "login" none, .getConnection, .select email,
          .compare password u.password_hash, .release] } := by
  simp [login, hconn, hsel, hpresent, hcmp, catchError]

theorem ms_thirty_minutes : ms "30m" = some 1800000 := by decide

theorem login_success (penv : ProcessEnv) (env : Env) (st : ServerState) (email : String)
    (password : JsVal) (now : Nat) (u : User) (rest : List User)
    (hconn : env.connectFault = none) (hsel : env.selectFault = none)
    (hpresent : selectByEmail st.users email = u :: rest)
    (hcmp : env.bcryptCompare password u.password_hash = .ok true) :
    login penv env st email password now =
      { reply := .sent
          { status := 200
            body :=
              [("message", JField.val (JVal.str "Successfully logged in")),
               ("token", JField.val (JVal.str (env.codec.encode (issuedToken penv u now)))),
               ("user", JField.obj [("id", JVal.num u.id), ("email", JVal.str u.email)])]
            cookies :=
              [.set
                { name := "token"
                  value := env.codec.encode (issuedToken penv u now)
                  httpOnly := true
                  secure := (config penv).NODE_ENV == "production"
                  sameSite := "strict"
                  maxAge := 30 * 60 * 1000 }] }
        state := st
        trace :=
          [.controller "login" none, .getConnection, .select email,
           .compare password u.password_hash, .sign u.id u.email, .release] } := by
  simp [login, hconn, hsel, hpresent, hcmp, jwtSign, ms_thirty_minutes, issuedToken]

theorem errorHandler_withoutStack (penv : ProcessEnv) (e : AppError) :
    withoutStack (errorHandler penv e).body =
      withoutStack (errorHandler penv { e with stack := none }).body := by
  unfold errorHandler withoutStack
  by_cases h : penv.NODE_ENV = some "development"
  · cases hs : e.stack <;> simp [h, hs, List.filter]
  · simp [h]

theorem validateAuthInput_nil_iff (cfg : Config) (isEmail : String → Bool)
    (numberToString : Int → String) (req : Request) :
    (validateAuthInput cfg isEmail numberToString req).2 = [] ↔
      (isEmail (trim (fieldToString numberToString req.email)) = true ∧
        (trim (fieldToString numberToString req.email)).length ≤
          cfg.SECURITY.EMAIL_MAX_LENGTH ∧
        cfg.SECURITY.PASSWORD_MIN_LENGTH ≤ (fieldToString numberToString req.password).length ∧
        (fieldToString numberToString req.password).length ≤
          cfg.SECURITY.PASSWORD_MAX_LENGTH) := by
  unfold validateAuthInput validateEmail validatePassword
  by_cases h1 : isEmail (trim (fieldToString numberToString req.email)) = true <;>
  by_cases h2 : (trim (fieldToString numberToString req.email)).length ≤
      cfg.SECURITY.EMAIL_MAX_LENGTH <;>
  by_cases h3 : cfg.SECURITY.PASSWORD_MIN_LENGTH ≤
        (fieldToString numberToString req.password).length ∧
      (fieldToString numberToString req.password).length ≤
        cfg.SECURITY.PASSWORD_MAX_LENGTH <;>
  simp [h1, h2, h3]

theorem validateAuthInput_errors (penv : ProcessEnv) (isEmail : String → Bool)
    (numberToString : Int → String) (req : Request) :
    (validateAuthInput (config penv) isEmail numberToString req).2 =
      (if isEmail (trim (fieldToString numberToString req.email)) = true then []
       else [{ param := "email", msg := "Invalid email address" }]) ++
      (if (trim (fieldToString numberToString req.email)).length ≤ 255 then []
       else [{ param := "email", msg := "Email must not exceed 255 characters" }]) ++
      (if 6 ≤ (fieldToString numberToString req.password).length ∧
          (fieldToString numberToString req.password).length ≤ 128
       then []
       else [{ param := "password",
               msg := "Password must be between 6 and 128 characters" }]) := by
  have h6 : (config penv).SECURITY.PASSWORD_MIN_LENGTH = 6 := rfl
  have h128 : (config penv).SECURITY.PASSWORD_MAX_LENGTH = 128 := rfl
  have h255 : (config penv).SECURITY.EMAIL_MAX_LENGTH = 255 := rfl
  have m1 : "Email must not exceed " ++ toString (255 : Nat) ++ " characters" =
      "Email must not exceed 255 characters" := by decide
  have m2 : "Password must be between " ++ toString (6 : Nat) ++ " and " ++
      toString (128 : Nat) ++ " characters" =
      "Password must be between 6 and 128 characters" := by decide
  simp only [validateAuthInput, validateEmail, validatePassword, h6, h128, h255, m1, m2]

theorem register_success (penv : ProcessEnv) (env : Env) (st : ServerState) (email : String)
    (password : JsVal) (h : String)
    (hconn : env.connectFault = none) (hsel : env.selectFault = none)
    (hins : env.insertFault = none)
    (habsent : selectByEmail st.users email = [])
    (hhash : env.bcryptHash password (config penv).SECURITY.BCRYPT_ROUNDS = .ok h) :
    register penv env st email password =
      { reply := .sent
          { status := 201
            body :=
              [("message", JField.val (JVal.str "User successfully registered")),
               ("userId", JField.val (JVal.num st.nextId))]
            cookies := [] }
        state :=
          { st with
            users := st.users ++ [{ id := st.nextId, email := email, password_hash := h }]
            nextId := st.nextId + 1 }
        trace :=
          [.controller "register" none, .getConnection, .select email,
           .hash password (config penv).SECURITY.BCRYPT_ROUNDS, .insert email h, .release] } := by
  simp [register, hconn, hsel, hins, habsent, hhash]

theorem register_duplicate (penv : ProcessEnv) (env : Env) (st : ServerState) (email : String)
    (password : JsVal) (u : User) (rest : List User)
    (hconn : env.connectFault = none) (hsel : env.selectFault = none)
    (hpresent : selectByEmail st.users email = u :: rest) :
    register penv env st email password =
      { reply := .error (newAppError "User with this email already exists" 409
          (some "USER_EXISTS") "authController.js:23")
        state := st
        trace := [.controller "register" none, .getConnection, .select email, .release] } := by
  simp [register, hconn, hsel, hpresent, catchError]

theorem selectByEmail_append_new (users : List User) (email : String) (id : Nat) (h : String)
    (habsent : selectByEmail users email = []) :
    selectByEmail (users ++ [{ id := id, email := email, password_hash := h }]) email =
      [{ id := id, email := email, password_hash := h }] := by
  unfold selectByEmail at *
  simp [List.filter_append, habsent]

theorem replaceFirstChars_append (pat rep rest : List Char) (hpat : pat ≠ []) :
    replaceFirstChars pat rep (pat ++ rest) = rep ++ rest := by
  cases pat with
  | nil => exact absurd rfl hpat
  | cons c cs =>
    have hp : (c :: cs).isPrefixOf (c :: (cs ++ rest)) = true := by
      have : (c :: cs) <+: (c :: cs) ++ rest := List.prefix_append _ _
      simp
    simp only [List.cons_append, replaceFirstChars, hp, if_true]
    simp

theorem replaceFirst_bearer (tok : String) : replaceFirst ("Bearer " ++ tok) "Bearer " "" = tok := by
  unfold replaceFirst
  have h : ("Bearer " ++ tok).data = "Bearer ".data ++ tok.data := String.data_append _ _
  rw [h, replaceFirstChars_append _ _ _ (by decide)]
  rfl

theorem extractToken_cookie (req : Request) (tok : String) (hne : tok ≠ "")
    (hc : req.cookieToken = some tok) : extractToken req = some tok := by
  simp [extractToken, hc, strTruthy, hne]

theorem extractToken_bearer (req : Request) (tok : String)
    (hc : strTruthy req.cookieToken = false)
    (ha : req.authorization = some ("Bearer " ++ tok)) : extractToken req = some tok := by
  simp [extractToken, hc, ha, replaceFirst_bearer]

theorem authTry_of_token (penv : ProcessEnv) (env : Env) (req : Request) (tok : String)
    (hne : tok ≠ "") (ht : extractToken req = some tok) :
    authTry penv env req =
      (jwtVerify env.codec tok (config penv).JWT.SECRET req.now, [.verify tok]) := by
  simp [authTry, ht, hne]

theorem jwtVerify_issued (penv : ProcessEnv) (codec : JwtCodec) (u : User) (issued now : Nat)
    (hcodec : codec.decode (codec.encode (issuedToken penv u issued)) =
      some (issuedToken penv u issued)) :
    jwtVerify codec (codec.encode (issuedToken penv u issued)) (config penv).JWT.SECRET now =
      if clockTimestamp now ≥ clockTimestamp issued + 1800 then
        .error (Thrown.tokenExpired "jwt expired")
      else .ok (issuedToken penv u issued).claims := by
  rw [jwtVerify, hcodec]
  simp [issuedToken]

/-! ## Lemmas on the answers to invalid credentials -/

/-- The two `INVALID_CREDENTIALS` branches of `login` answer alike: for a request
that passes the limiter and validation, the response when the email is not in the
store and the response when it is in the store and `bcrypt.compare` returns false
both have status 401, message `Invalid email or password` and error code
`INVALID_CREDENTIALS`; their bodies agree on every field other than the debug-only
`stack`, and the two responses are equal whenever `process.env.NODE_ENV` is not
`development`. -/
theorem login_invalid_credentials_uniform (penv : ProcessEnv) (env : Env) (st1 st2 : ServerState)
    (req : Request) (u : User) (rest : List User)
    (hlim1 : (loginLimiter (config penv) env.ipKeyGenerator st1.loginHits req).2 = none)
    (hlim2 : (loginLimiter (config penv) env.ipKeyGenerator st2.loginHits req).2 = none)
    (hval : (validateAuthInput (config penv) env.isEmail env.numberToString req).2 = [])
    (hconn : env.connectFault = none) (hsel : env.selectFault = none)
    (habsent : selectByEmail st1.users (trim (fieldToString env.numberToString req.email)) = [])
    (hpresent : selectByEmail st2.users (trim (fieldToString env.numberToString req.email)) = u :: rest)
    (hcmp : env.bcryptCompare req.password u.password_hash = .ok false) :
    (loginRoute penv env st1 req).response.status = 401 ∧
    (loginRoute penv env st2 req).response.status = 401 ∧
    (loginRoute penv env st1 req).response.field "error" =
      some (.val (.str "Invalid email or password")) ∧
    (loginRoute penv env st2 req).response.field "error" =
      some (.val (.str "Invalid email or password")) ∧
    (loginRoute penv env st1 req).response.field "errorCode" =
      some (.val (.str "INVALID_CREDENTIALS")) ∧
    (loginRoute penv env st2 req).response.field "errorCode" =
      some (.val (.str "INVALID_CREDENTIALS")) ∧
    withoutStack (loginRoute penv env st1 req).response.body =
      withoutStack (loginRoute penv env st2 req).response.body ∧
    (loginRoute penv env st1 req).response.cookies =
      (loginRoute penv env st2 req).response.cookies ∧
    (penv.NODE_ENV ≠ some "development" →
      (loginRoute penv env st1 req).response = (loginRoute penv env st2 req).response) := by
  rw [loginRoute_of_pass penv env st1 req hlim1 hval,
    loginRoute_of_pass penv env st2 req hlim2 hval]
  rw [login_absent penv env
      { st1 with loginHits := (loginLimiter (config penv) env.ipKeyGenerator st1.loginHits req).1 }
      _ _ _ hconn hsel habsent,
    login_mismatch penv env
      { st2 with loginHits := (loginLimiter (config penv) env.ipKeyGenerator st2.loginHits req).1 }
      _ _ _ u rest hconn hsel hpresent hcmp]
  simp only [Run.finish]
  refine ⟨rfl, rfl, rfl, rfl, rfl, rfl, ?_, rfl, ?_⟩
  · rw [errorHandler_withoutStack,
      errorHandler_withoutStack penv (newAppError _ _ _ "authController.js:91")]
    rfl
  · intro h
    simp [errorHandler, h, newAppError]

/-- A wrong password against the stand-in hasher `demoCompare`: every string
other than `secret1` is rejected against the digest of `secret1`. -/
theorem demoCompare_other (p : String) (hp : p ≠ "secret1") :
    demoCompare (.str p) "$2a$secret1" = .ok false := by
  have hne : "$2a$secret1" ≠ "$2a$" ++ p := by
    intro h
    apply hp
    have hd : "$2a$".data ++ "secret1".data = "$2a$".data ++ p.data := by
      have := congrArg String.data h
      rw [String.data_append] at this
      exact this
    exact (String.ext (List.append_cancel_left hd)).symm
  simp [demoCompare, hne]

/-! ## C1: enumeration resistance of login -/

/-- C1, the code at the failing input. The body `{email: "a@x.com", password:
1234567}` carries a JSON number as password. It passes validation (its string form
has seven characters) and the limiter. When `a@x.com` is not stored the answer is
401 `Invalid email or password`; when it is stored, `bcrypt.compare` is called with
the number, throws, and the answer is 500 `Login failed`. The two responses
differ, so the answer tells whether the email is registered. -/
theorem login_enumeration_numeric_password :
    (validateAuthInput (config demoPenv) demoEnv.isEmail demoEnv.numberToString
      (demoNumReq "a@x.com" 1234567 0)).2 = [] ∧
    (loginLimiter (config demoPenv) demoEnv.ipKeyGenerator demoState.loginHits
      (demoNumReq "a@x.com" 1234567 0)).2 = none ∧
    (loginLimiter (config demoPenv) demoEnv.ipKeyGenerator demoState1.loginHits
      (demoNumReq "a@x.com" 1234567 0)).2 = none ∧
    selectByEmail demoState.users "a@x.com" = [] ∧
    selectByEmail demoState1.users "a@x.com" =
      [{ id := 1, email := "a@x.com", password_hash := "$2a$secret1" }] ∧
    (loginRoute demoPenv demoEnv demoState (demoNumReq "a@x.com" 1234567 0)).response =
      { status := 401
        body := [("error", .val (.str "Invalid email or password")),
                 ("statusCode", .val (.num 401)),
                 ("errorCode", .val (.str "INVALID_CREDENTIALS"))]
        cookies := [] } ∧
    (loginRoute demoPenv demoEnv demoState1 (demoNumReq "a@x.com" 1234567 0)).response =
      { status := 500
        body := [("error", .val (.str "Login failed")), ("statusCode", .val (.num 500)),
                 ("errorCode", .val (.str "INTERNAL_ERROR"))]
        cookies := [] } ∧
    (loginRoute demoPenv demoEnv demoState1 (demoNumReq "a@x.com" 1234567 0)).trace =
      [.controller "login" none, .getConnection, .select "a@x.com",
       .compare (.num 1234567) "$2a$secret1", .release] := by
  decide

/-! ## C2: login with a wrong password -/

/-- C2, counterexample. After `register("a@x.com", "secret1")` answered 201, the
request `login("a@x.com", "wrong")` passes the limiter and is answered 400
`Validation failed`, not 401: the password has five characters. And a wrong
password that is the JSON number 1234567 passes validation and is answered 500
`Login failed`, not 401. -/
theorem login_wrong_password_counterexample :
    (registerRoute demoPenv demoEnv demoState (demoReq "a@x.com" "secret1" 0)).response.status
      = 201 ∧
    (loginLimiter (config demoPenv) demoEnv.ipKeyGenerator
      (registerRoute demoPenv demoEnv demoState (demoReq "a@x.com" "secret1" 0)).state.loginHits
      (demoReq "a@x.com" "wrong" 1000)).2 = none ∧
    (loginRoute demoPenv demoEnv
      (registerRoute demoPenv demoEnv demoState (demoReq "a@x.com" "secret1" 0)).state
      (demoReq "a@x.com" "wrong" 1000)).response =
      validationFailed
        [{ param := "password", msg := "Password must be between 6 and 128 characters" }] ∧
    ¬ (loginRoute demoPenv demoEnv
      (registerRoute demoPenv demoEnv demoState (demoReq "a@x.com" "secret1" 0)).state
      (demoReq "a@x.com" "wrong" 1000)).response.status = 401 ∧
    (validateAuthInput (config demoPenv) demoEnv.isEmail demoEnv.numberToString
      (demoNumReq "a@x.com" 1234567 1000)).2 = [] ∧
    (loginRoute demoPenv demoEnv
      (registerRoute demoPenv demoEnv demoState (demoReq "a@x.com" "secret1" 0)).state
      (demoNumReq "a@x.com" 1234567 1000)).response.status = 500 := by
  decide

/-- C2, amended. Take a stored identity whose hash the hasher verifies for the
string `registered` and for no other string, and a login request with its (valid)
email that passes the limiter, the store answering. For every string password
`wrong` different from `registered`: when `wrong` has between 6 and 128 characters
the answer is 401 with message `Invalid email or password` and error code
`INVALID_CREDENTIALS`; when it has not, the answer is 400 `Validation failed` and
no call is made. -/
theorem login_wrong_password (penv : ProcessEnv) (env : Env) (st : ServerState) (req : Request)
    (u : User) (rest : List User) (registered wrong : String)
    (hlim : (loginLimiter (config penv) env.ipKeyGenerator st.loginHits req).2 = none)
    (hemail : env.isEmail (trim (fieldToString env.numberToString req.email)) = true)
    (hlen : (trim (fieldToString env.numberToString req.email)).length ≤ 255)
    (hconn : env.connectFault = none) (hsel : env.selectFault = none)
    (hpresent :
      selectByEmail st.users (trim (fieldToString env.numberToString req.email)) = u :: rest)
    (_hown : env.bcryptCompare (.str registered) u.password_hash = .ok true)
    (hothers : ∀ p : String, p ≠ registered →
      env.bcryptCompare (.str p) u.password_hash = .ok false)
    (hpassword : req.password = .str wrong) (hwrong : wrong ≠ registered) :
    ((6 ≤ wrong.length ∧ wrong.length ≤ 128) →
      (loginRoute penv env st req).response.status = 401 ∧
      (loginRoute penv env st req).response.field "error" =
        some (.val (.str "Invalid email or password")) ∧
      (loginRoute penv env st req).response.field "errorCode" =
        some (.val (.str "INVALID_CREDENTIALS"))) ∧
    (¬ (6 ≤ wrong.length ∧ wrong.length ≤ 128) →
      (loginRoute penv env st req).response =
        validationFailed
          [{ param := "password", msg := "Password must be between 6 and 128 characters" }] ∧
      (loginRoute penv env st req).response.status = 400 ∧
      (loginRoute penv env st req).trace = []) := by
  have hstr : fieldToString env.numberToString req.password = wrong := by
    rw [hpassword]; rfl
  have hcmp : env.bcryptCompare req.password u.password_hash = .ok false := by
    rw [hpassword]; exact hothers wrong hwrong
  constructor
  · intro hpw
    have hval : (validateAuthInput (config penv) env.isEmail env.numberToString req).2 = [] :=
      (validateAuthInput_nil_iff _ _ _ _).2 ⟨hemail, hlen, by rw [hstr]; exact hpw.1,
        by rw [hstr]; exact hpw.2⟩
    rw [loginRoute_of_pass penv env st req hlim hval]
    rw [login_mismatch penv env
      { st with loginHits := (loginLimiter (config penv) env.ipKeyGenerator st.loginHits req).1 }
      _ _ _ u rest hconn hsel hpresent hcmp]
    exact ⟨rfl, rfl, rfl⟩
  · intro hpw
    have hv : (validateAuthInput (config penv) env.isEmail env.numberToString req).2 =
        [{ param := "password", msg := "Password must be between 6 and 128 characters" }] := by
      rw [validateAuthInput_errors, hstr]
      have hlen' : (trim (fieldToString env.numberToString req.email)).length ≤ 255 := hlen
      simp only [hemail, hlen', hpw, if_true, if_false, List.append_nil, List.nil_append]
    unfold loginRoute
    simp only [hlim, hv, handleValidationErrors]
    exact ⟨rfl, rfl, rfl⟩

/-- C2 amended, on an input: `login("a@x.com", "wrong1")` against the identity
registered with `secret1` is answered 401. -/
theorem login_wrong_password_witness :
    (loginRoute demoPenv demoEnv demoState1 (demoReq "a@x.com" "wrong1" 1000)).response.status
      = 401 :=
  ((login_wrong_password demoPenv demoEnv demoState1 (demoReq "a@x.com" "wrong1" 1000)
    { id := 1, email := "a@x.com", password_hash := "$2a$secret1" } [] "secret1" "wrong1"
    (by decide) (by decide) (by decide) (by decide) (by decide) (by decide) rfl
    demoCompare_other rfl (by decide)).1 (by decide)).1

/-! ## Lemmas on the protected routes -/

theorem meRoute_of_claims (penv : ProcessEnv) (env : Env) (st : ServerState) (req : Request)
    (tok : String) (c : Claims) (hne : tok ≠ "") (ht : extractToken req = some tok)
    (hv : jwtVerify env.codec tok (config penv).JWT.SECRET req.now = .ok c) :
    meRoute penv env st req =
      { response :=
          { status := 200
            body := [("user", JField.obj [("id", JVal.num c.id), ("email", JVal.str c.email)])]
            cookies := [] }
        state := st
        trace := [.verify tok, .controller "getUser" (some c)] } := by
  simp [meRoute, protectedRoute, authMiddleware, authTry_of_token penv env req tok hne ht, hv,
    getUser, Run.finish]

theorem logoutRoute_of_claims (penv : ProcessEnv) (env : Env) (st : ServerState) (req : Request)
    (tok : String) (c : Claims) (hne : tok ≠ "") (ht : extractToken req = some tok)
    (hv : jwtVerify env.codec tok (config penv).JWT.SECRET req.now = .ok c) :
    logoutRoute penv env st req =
      { response :=
          { status := 200
            body := [("message", JField.val (JVal.str "Successfully logged out"))]
            cookies := [.clear "token"] }
        state := st
        trace := [.verify tok, .controller "logout" (some c)] } := by
  simp [logoutRoute, protectedRoute, authMiddleware, authTry_of_token penv env req tok hne ht, hv,
    logout, Run.finish]

theorem protectedRoute_of_thrown (controller : ServerState → Option Claims → Run)
    (penv : ProcessEnv) (env : Env) (st : ServerState) (req : Request) (t : Thrown)
    (h : (authTry penv env req).1 = .error t) :
    protectedRoute controller penv env st req =
      { response := errorHandler penv (authCatch t)
        state := st
        trace := (authTry penv env req).2 } := by
  simp [protectedRoute, authMiddleware, h]

/-! ## Lemmas on the round trip -/

/-- The round trip for a password the hasher accepts: for an email and password
that pass validation, with the email not yet stored, no limiter hit, a store that
answers and a hasher that returns a digest for the password and verifies it,
`POST /register` returns 201 with the new user id; a following `POST /login` with
the same email and password returns 200 with a token and the user `{id, email}`;
and a following `GET /me` carrying that token (as cookie, or as bearer header
without a cookie) before its expiry returns 200 with the same `{id, email}`. -/
theorem round_trip_when_hasher_accepts (penv : ProcessEnv) (env : Env) (st : ServerState)
    (req1 req2 req3 : Request) (h : String)
    (hlimR : (registerLimiter (config penv) env.ipKeyGenerator st.registerHits req1).2 = none)
    (hval : (validateAuthInput (config penv) env.isEmail env.numberToString req1).2 = [])
    (hconn : env.connectFault = none) (hsel : env.selectFault = none)
    (hins : env.insertFault = none)
    (habsent : selectByEmail st.users (trim (fieldToString env.numberToString req1.email)) = [])
    (hhash : env.bcryptHash req1.password (config penv).SECURITY.BCRYPT_ROUNDS = .ok h)
    (hcmp : env.bcryptCompare req1.password h = .ok true)
    (hemail : req2.email = req1.email) (hpassword : req2.password = req1.password)
    (hlimL : (loginLimiter (config penv) env.ipKeyGenerator st.loginHits req2).2 = none)
    (hcodec : env.codec.decode (env.codec.encode (issuedToken penv
        { id := st.nextId, email := trim (fieldToString env.numberToString req1.email), password_hash := h }
        req2.now)) =
      some (issuedToken penv
        { id := st.nextId, email := trim (fieldToString env.numberToString req1.email), password_hash := h }
        req2.now))
    (hne : env.codec.encode (issuedToken penv
        { id := st.nextId, email := trim (fieldToString env.numberToString req1.email), password_hash := h }
        req2.now) ≠ "")
    (hcarry : req3.cookieToken = some (env.codec.encode (issuedToken penv
          { id := st.nextId, email := trim (fieldToString env.numberToString req1.email), password_hash := h }
          req2.now)) ∨
      (strTruthy req3.cookieToken = false ∧
        req3.authorization = some ("Bearer " ++ env.codec.encode (issuedToken penv
          { id := st.nextId, email := trim (fieldToString env.numberToString req1.email), password_hash := h }
          req2.now))))
    (hfresh : clockTimestamp req3.now < clockTimestamp req2.now + 1800) :
    (registerRoute penv env st req1).response.status = 201 ∧
    (registerRoute penv env st req1).response.field "userId" =
      some (.val (.num st.nextId)) ∧
    (loginRoute penv env (registerRoute penv env st req1).state req2).response.status = 200 ∧
    (loginRoute penv env (registerRoute penv env st req1).state req2).response.field "token" =
      some (.val (.str (env.codec.encode (issuedToken penv
        { id := st.nextId, email := trim (fieldToString env.numberToString req1.email), password_hash := h }
        req2.now)))) ∧
    (loginRoute penv env (registerRoute penv env st req1).state req2).response.field "user" =
      some (.obj [("id", .num st.nextId), ("email", .str (trim (fieldToString env.numberToString req1.email)))]) ∧
    (meRoute penv env
      (loginRoute penv env (registerRoute penv env st req1).state req2).state req3).response =
      { status := 200
        body := [("user",
          .obj [("id", .num st.nextId), ("email", .str (trim (fieldToString env.numberToString req1.email)))])]
        cookies := [] } := by
  have hreg := registerRoute_of_pass penv env st req1 hlimR hval
  rw [register_success penv env
    { st with
      registerHits := (registerLimiter (config penv) env.ipKeyGenerator st.registerHits req1).1 }
    _ _ h hconn hsel hins habsent hhash] at hreg
  have hval2 : (validateAuthInput (config penv) env.isEmail env.numberToString req2).2 = [] := by
    simpa [validateAuthInput, hemail, hpassword] using hval
  have hlimL' : (loginLimiter (config penv) env.ipKeyGenerator
      (registerRoute penv env st req1).state.loginHits req2).2 = none := by
    rw [hreg]; exact hlimL
  have hlog := loginRoute_of_pass penv env (registerRoute penv env st req1).state req2
    hlimL' hval2
  have hsel2 : selectByEmail (registerRoute penv env st req1).state.users
      (trim (fieldToString env.numberToString req2.email)) =
      [{ id := st.nextId, email := trim (fieldToString env.numberToString req1.email), password_hash := h }] := by
    rw [hreg, hemail]
    exact selectByEmail_append_new _ _ _ _ habsent
  rw [login_success penv env
    { (registerRoute penv env st req1).state with
      loginHits := (loginLimiter (config penv) env.ipKeyGenerator
        (registerRoute penv env st req1).state.loginHits req2).1 }
    _ _ _ _ [] hconn hsel hsel2 (by rw [hpassword]; exact hcmp)] at hlog
  have htok : extractToken req3 = some (env.codec.encode (issuedToken penv
      { id := st.nextId, email := trim (fieldToString env.numberToString req1.email), password_hash := h }
      req2.now)) := by
    rcases hcarry with hc | ⟨hc, ha⟩
    · exact extractToken_cookie _ _ hne hc
    · exact extractToken_bearer _ _ hc ha
  have hver := jwtVerify_issued penv env.codec
    { id := st.nextId, email := trim (fieldToString env.numberToString req1.email), password_hash := h }
    req2.now req3.now hcodec
  rw [if_neg (by omega)] at hver
  rw [meRoute_of_claims penv env _ req3 _ _ hne htok hver, hlog, hreg]
  exact ⟨rfl, rfl, rfl, rfl, rfl, rfl⟩

/-- The round trip on an input: `a@x.com` with `secret1` registers, logs in at 5 s
and reads `/me` half an hour minus one millisecond after the token was issued. -/
theorem round_trip_when_hasher_accepts_witness :
    (registerRoute demoPenv demoEnv demoState (demoReq " a@x.com" "secret1" 0)).response.status
      = 201 ∧
    (meRoute demoPenv demoEnv
      (loginRoute demoPenv demoEnv
        (registerRoute demoPenv demoEnv demoState (demoReq " a@x.com" "secret1" 0)).state
        (demoReq " a@x.com" "secret1" 5000)).state
      (demoCookieReq "jwt.s3cret.1.5.1805.a@x.com" 1804999)).response =
      { status := 200
        body := [("user", .obj [("id", .num 1), ("email", .str "a@x.com")])]
        cookies := [] } :=
  have h := round_trip_when_hasher_accepts demoPenv demoEnv demoState
    (demoReq " a@x.com" "secret1" 0) (demoReq " a@x.com" "secret1" 5000)
    (demoCookieReq "jwt.s3cret.1.5.1805.a@x.com" 1804999) "$2a$secret1"
    (by decide) (by decide) (by decide) (by decide) (by decide) (by decide) rfl rfl rfl rfl
    (by decide) (by decide) (by decide) (Or.inl (by decide)) (by decide)
  ⟨h.1, h.2.2.2.2.2⟩

/-! ## C3: register, login, verify -/

/-- C3, the code at the failing input. The body `{email: "a@x.com", password:
1234567}` carries a JSON number as password. With `a@x.com` not yet stored it
passes the limiter and validation (its string form has seven characters), the
controller runs, `bcrypt.hash` is called with the number and throws, and
`POST /register` answers 500 `Registration failed` instead of 201; no row is
written, so no login can follow. -/
theorem register_numeric_password_fails :
    (registerLimiter (config demoPenv) demoEnv.ipKeyGenerator demoState.registerHits
      (demoNumReq "a@x.com" 1234567 0)).2 = none ∧
    (validateAuthInput (config demoPenv) demoEnv.isEmail demoEnv.numberToString
      (demoNumReq "a@x.com" 1234567 0)).2 = [] ∧
    selectByEmail demoState.users "a@x.com" = [] ∧
    (registerRoute demoPenv demoEnv demoState (demoNumReq "a@x.com" 1234567 0)).response =
      { status := 500
        body := [("error", .val (.str "Registration failed")),
                 ("statusCode", .val (.num 500)),
                 ("errorCode", .val (.str "INTERNAL_ERROR"))]
        cookies := [] } ∧
    (registerRoute demoPenv demoEnv demoState (demoNumReq "a@x.com" 1234567 0)).trace =
      [.controller "register" none, .getConnection, .select "a@x.com",
       .hash (.num 1234567) 10, .release] ∧
    (registerRoute demoPenv demoEnv demoState (demoNumReq "a@x.com" 1234567 0)).state.users
      = [] ∧
    (loginRoute demoPenv demoEnv
      (registerRoute demoPenv demoEnv demoState (demoNumReq "a@x.com" 1234567 0)).state
      (demoNumReq "a@x.com" 1234567 1000)).response.status = 401 := by
  decide

/-! ## Lemmas on registration of a stored email -/

theorem register_present_no_write (penv : ProcessEnv) (env : Env) (st : ServerState)
    (email : String) (password : JsVal) (u : User) (rest : List User)
    (hpresent : selectByEmail st.users email = u :: rest) :
    (register penv env st email password).state = st ∧
    ∀ ev ∈ (register penv env st email password).trace,
      (∀ e h, ev ≠ Event.insert e h) ∧ (∀ p r, ev ≠ Event.hash p r) := by
  unfold register
  cases hc : env.connectFault <;> cases hs : env.selectFault <;> simp [hpresent]

/-! ## C4: duplicate registration -/

/-- C4. Duplicate registration is rejected without a write: when the store holds
a record for the (sanitized) email of a register request that passes the limiter
and validation, the store is not written and the hasher is not called (no `INSERT`
and no `hash` call in the trace, table `users` and its next id unchanged); and
when the store answers the `SELECT`, the response is 409 with error code
`USER_EXISTS`, after exactly one `SELECT`. -/
theorem register_duplicate_rejected (penv : ProcessEnv) (env : Env) (st : ServerState)
    (req : Request) (u : User) (rest : List User)
    (hlim : (registerLimiter (config penv) env.ipKeyGenerator st.registerHits req).2 = none)
    (hval : (validateAuthInput (config penv) env.isEmail env.numberToString req).2 = [])
    (hpresent : selectByEmail st.users (trim (fieldToString env.numberToString req.email)) = u :: rest) :
    (registerRoute penv env st req).state.users = st.users ∧
    (registerRoute penv env st req).state.nextId = st.nextId ∧
    (∀ ev ∈ (registerRoute penv env st req).trace,
      (∀ e h, ev ≠ Event.insert e h) ∧ (∀ p r, ev ≠ Event.hash p r)) ∧
    (env.connectFault = none → env.selectFault = none →
      (registerRoute penv env st req).response.status = 409 ∧
      (registerRoute penv env st req).response.field "error" =
        some (.val (.str "User with this email already exists")) ∧
      (registerRoute penv env st req).response.field "errorCode" =
        some (.val (.str "USER_EXISTS")) ∧
      (registerRoute penv env st req).trace =
        [.controller "register" none, .getConnection,
         .select (trim (fieldToString env.numberToString req.email)), .release]) := by
  rw [registerRoute_of_pass penv env st req hlim hval]
  have hw := register_present_no_write penv env
    { st with
      registerHits := (registerLimiter (config penv) env.ipKeyGenerator st.registerHits req).1 }
    (trim (fieldToString env.numberToString req.email)) req.password u rest hpresent
  refine ⟨?_, ?_, ?_, ?_⟩
  · simp only [Run.finish]; rw [hw.1]
  · simp only [Run.finish]; rw [hw.1]
  · exact hw.2
  · intro hconn hsel
    rw [register_duplicate penv env
      { st with
        registerHits := (registerLimiter (config penv) env.ipKeyGenerator st.registerHits req).1 }
      _ _ u rest hconn hsel hpresent]
    exact ⟨rfl, rfl, rfl, rfl⟩

/-- C4, on an input: a second registration of `a@x.com`, with another password, is
answered 409 and leaves the stored row as it was. -/
theorem register_duplicate_rejected_witness :
    (registerRoute demoPenv demoEnv demoState1 (demoReq "a@x.com" "another-one" 7)).state.users
      = [{ id := 1, email := "a@x.com", password_hash := "$2a$secret1" }] ∧
    (registerRoute demoPenv demoEnv demoState1 (demoReq "a@x.com" "another-one" 7)).response.status
      = 409 :=
  have h := register_duplicate_rejected demoPenv demoEnv demoState1
    (demoReq "a@x.com" "another-one" 7)
    { id := 1, email := "a@x.com", password_hash := "$2a$secret1" } []
    (by decide) (by decide) (by decide)
  ⟨h.1, (h.2.2.2 (by decide) (by decide)).1⟩

/-! ## C5: token expiry window -/

/-- C5. Token expiry window: let a login at clock `T` succeed and issue a token.
For every later request to a protected route carrying that token at clock `t`,
with `T` and `t` read in whole seconds as the token library reads them: if
`t < T + 1800` the middleware accepts the token and sets `req.user` to its claims,
and `GET /me` answers 200; if `t ≥ T + 1800` the answer is 401 with message
`Token expired` and error code `TOKEN_EXPIRED`. In milliseconds, every check at
or after `T + 30 min` is rejected. -/
theorem token_expiry_window (penv : ProcessEnv) (env : Env) (st : ServerState) (req : Request)
    (u : User) (rest : List User)
    (hlim : (loginLimiter (config penv) env.ipKeyGenerator st.loginHits req).2 = none)
    (hval : (validateAuthInput (config penv) env.isEmail env.numberToString req).2 = [])
    (hconn : env.connectFault = none) (hsel : env.selectFault = none)
    (hpresent : selectByEmail st.users (trim (fieldToString env.numberToString req.email)) = u :: rest)
    (hcmp : env.bcryptCompare req.password u.password_hash = .ok true)
    (hcodec : env.codec.decode (env.codec.encode (issuedToken penv u req.now)) =
      some (issuedToken penv u req.now))
    (hne : env.codec.encode (issuedToken penv u req.now) ≠ "") :
    (loginRoute penv env st req).response.status = 200 ∧
    (loginRoute penv env st req).response.field "token" =
      some (.val (.str (env.codec.encode (issuedToken penv u req.now)))) ∧
    ∀ (st2 : ServerState) (chk : Request),
      extractToken chk = some (env.codec.encode (issuedToken penv u req.now)) →
      (clockTimestamp chk.now < clockTimestamp req.now + 1800 →
        (authMiddleware penv env chk).user = .ok (issuedToken penv u req.now).claims ∧
        (meRoute penv env st2 chk).response.status = 200 ∧
        (logoutRoute penv env st2 chk).response.status = 200) ∧
      (clockTimestamp req.now + 1800 ≤ clockTimestamp chk.now →
        (authMiddleware penv env chk).user =
          .error (newAppError "Token expired" 401 (some "TOKEN_EXPIRED")
            "authMiddleware.js:31") ∧
        (meRoute penv env st2 chk).response.status = 401 ∧
        (meRoute penv env st2 chk).response.field "error" = some (.val (.str "Token expired")) ∧
        (meRoute penv env st2 chk).response.field "errorCode" =
          some (.val (.str "TOKEN_EXPIRED")) ∧
        (logoutRoute penv env st2 chk).response = (meRoute penv env st2 chk).response) ∧
      (req.now + 30 * 60 * 1000 ≤ chk.now →
        clockTimestamp req.now + 1800 ≤ clockTimestamp chk.now) := by
  have hlog := loginRoute_of_pass penv env st req hlim hval
  rw [login_success penv env
    { st with loginHits := (loginLimiter (config penv) env.ipKeyGenerator st.loginHits req).1 }
    _ _ _ u rest hconn hsel hpresent hcmp] at hlog
  refine ⟨by rw [hlog]; rfl, by rw [hlog]; rfl, ?_⟩
  intro st2 chk htok
  have hver := jwtVerify_issued penv env.codec u req.now chk.now hcodec
  have htry := authTry_of_token penv env chk _ hne htok
  refine ⟨?_, ?_, ?_⟩
  · intro hlt
    rw [if_neg (by omega)] at hver
    refine ⟨?_, ?_, ?_⟩
    · simp [authMiddleware, htry, hver]
    · rw [meRoute_of_claims penv env st2 chk _ _ hne htok hver]
    · rw [logoutRoute_of_claims penv env st2 chk _ _ hne htok hver]
  · intro hge
    rw [if_pos (by omega)] at hver
    have h1 : (authTry penv env chk).1 = .error (Thrown.tokenExpired "jwt expired") := by
      rw [htry]; exact hver
    refine ⟨?_, ?_⟩
    · simp [authMiddleware, h1, authCatch]
    · unfold meRoute logoutRoute
      rw [protectedRoute_of_thrown getUser penv env st2 chk _ h1,
        protectedRoute_of_thrown logout penv env st2 chk _ h1]
      exact ⟨rfl, rfl, rfl, rfl⟩
  · intro hms
    unfold clockTimestamp
    omega

/-- C5, on an input: the token issued at 5 000 ms is accepted at 1 804 999 ms and
rejected with `TOKEN_EXPIRED` at 1 805 000 ms. -/
theorem token_expiry_window_witness :
    (meRoute demoPenv demoEnv demoState1
      (demoCookieReq "jwt.s3cret.1.5.1805.a@x.com" 1804999)).response.status = 200 ∧
    (meRoute demoPenv demoEnv demoState1
      (demoCookieReq "jwt.s3cret.1.5.1805.a@x.com" 1805000)).response.field "errorCode" =
      some (.val (.str "TOKEN_EXPIRED")) :=
  have h := token_expiry_window demoPenv demoEnv demoState1 (demoReq "a@x.com" "secret1" 5000)
    { id := 1, email := "a@x.com", password_hash := "$2a$secret1" } []
    (by decide) (by decide) (by decide) (by decide) (by decide) rfl (by decide) (by decide)
  ⟨((h.2.2 demoState1 (demoCookieReq "jwt.s3cret.1.5.1805.a@x.com" 1804999) (by decide)).1
      (by decide)).2.1,
   ((h.2.2 demoState1 (demoCookieReq "jwt.s3cret.1.5.1805.a@x.com" 1805000) (by decide)).2.1
      (by decide)).2.2.2.1⟩

/-! ## Lemmas on the login limiter -/

theorem HitStore.get_set (hs : HitStore) (key : JsVal) (c : Client) :
    (hs.set key c).get key = some c := by
  simp [HitStore.get, HitStore.set]

theorem loginKey_of_email (ipk : KeyArg → JsVal) (req : Request) (e : String) (he : e ≠ "")
    (hk : req.email = .str e) : loginKey ipk req = .str e := by
  simp [loginKey, hk, JsVal.truthy, he]

theorem loginLimiter_open (penv : ProcessEnv) (env : Env) (hs : HitStore) (req : Request)
    (e : String) (n R : Nat) (hen : (config penv).NODE_ENV ≠ "test") (he : e ≠ "")
    (hk : req.email = .str e) (hget : hs.get (.str e) = some { totalHits := n, resetTime := R })
    (hnow : req.now < R) :
    loginLimiter (config penv) env.ipKeyGenerator hs req =
      (hs.set (.str e) { totalHits := n + 1, resetTime := R },
        if n + 1 > 5 then some (tooMany "Too many login attempts. Please try again later.")
        else none) := by
  have hmax : (config penv).RATE_LIMIT.LOGIN_MAX_ATTEMPTS = 5 := rfl
  have hR : ¬ R ≤ req.now := by omega
  simp only [loginLimiter, rateLimit, increment, loginKey_of_email _ req e he hk, hget, hmax]
  simp only [beq_iff_eq, hen, if_false, hR]
  split <;> rfl

theorem loginLimiter_fresh (penv : ProcessEnv) (env : Env) (hs : HitStore) (req : Request)
    (e : String) (hen : (config penv).NODE_ENV ≠ "test") (he : e ≠ "")
    (hk : req.email = .str e)
    (hfresh : ∀ c, hs.get (.str e) = some c → c.resetTime ≤ req.now) :
    loginLimiter (config penv) env.ipKeyGenerator hs req =
      (hs.set (.str e)
        { totalHits := 1, resetTime := req.now + (config penv).RATE_LIMIT.LOGIN_WINDOW_MS },
        none) := by
  have hmax : (config penv).RATE_LIMIT.LOGIN_MAX_ATTEMPTS = 5 := rfl
  simp only [loginLimiter, rateLimit, increment, loginKey_of_email _ req e he hk, hmax]
  simp only [beq_iff_eq, hen, if_false]
  cases hg : hs.get (.str e) with
  | none => simp
  | some c => simp [hfresh c hg]

theorem login_state (penv : ProcessEnv) (env : Env) (st : ServerState) (email : String)
    (password : JsVal) (now : Nat) : (login penv env st email password now).state = st := by
  unfold login
  repeat' split
  all_goals rfl

theorem loginRoute_state (penv : ProcessEnv) (env : Env) (st : ServerState) (req : Request) :
    (loginRoute penv env st req).state =
      { st with loginHits := (loginLimiter (config penv) env.ipKeyGenerator st.loginHits req).1 } := by
  unfold loginRoute
  simp only []
  split
  · rfl
  · split
    · rfl
    · simp only [Run.finish, login_state]

theorem stateAfterLogins_open (penv : ProcessEnv) (env : Env) (e : String)
    (hen : (config penv).NODE_ENV ≠ "test") (he : e ≠ "") (R : Nat) :
    ∀ (qs : List Request) (st : ServerState) (n : Nat),
      st.loginHits.get (.str e) = some { totalHits := n, resetTime := R } →
      (∀ q ∈ qs, q.email = .str e ∧ q.now < R) →
      (stateAfterLogins penv env st qs).loginHits.get (.str e) =
        some { totalHits := n + qs.length, resetTime := R } ∧
      (stateAfterLogins penv env st qs).users = st.users := by
  intro qs
  induction qs with
  | nil => intro st n hget _; exact ⟨by simpa [stateAfterLogins] using hget, rfl⟩
  | cons q qs ih =>
    intro st n hget hall
    have hq := hall q (List.mem_cons_self _ _)
    have hstep : (loginRoute penv env st q).state.loginHits.get (.str e) =
        some { totalHits := n + 1, resetTime := R } := by
      rw [loginRoute_state, loginLimiter_open penv env _ q e n R hen he hq.1 hget hq.2]
      exact HitStore.get_set _ _ _
    have hu : (loginRoute penv env st q).state.users = st.users := by
      rw [loginRoute_state]
    have := ih (loginRoute penv env st q).state (n + 1) hstep
      (fun q' hq' => hall q' (List.mem_cons_of_mem _ hq'))
    refine ⟨?_, ?_⟩
    · show (stateAfterLogins penv env (loginRoute penv env st q).state qs).loginHits.get _ = _
      rw [this.1]
      simp only [List.length_cons]
      congr 2
      omega
    · show (stateAfterLogins penv env (loginRoute penv env st q).state qs).users = _
      rw [this.2, hu]

theorem stateAfterLogins_window (penv : ProcessEnv) (env : Env) (e : String)
    (hen : (config penv).NODE_ENV ≠ "test") (he : e ≠ "") (st : ServerState)
    (first : Request) (qs : List Request)
    (hkey : ∀ q ∈ first :: qs, q.email = .str e)
    (hfresh : ∀ c, st.loginHits.get (.str e) = some c → c.resetTime ≤ first.now)
    (hwin : ∀ q ∈ first :: qs,
      q.now < first.now + (config penv).RATE_LIMIT.LOGIN_WINDOW_MS) :
    (stateAfterLogins penv env st (first :: qs)).loginHits.get (.str e) =
      some { totalHits := 1 + qs.length,
             resetTime := first.now + (config penv).RATE_LIMIT.LOGIN_WINDOW_MS } ∧
    (stateAfterLogins penv env st (first :: qs)).users = st.users := by
  have hstep : (loginRoute penv env st first).state.loginHits.get (.str e) =
      some { totalHits := 1,
             resetTime := first.now + (config penv).RATE_LIMIT.LOGIN_WINDOW_MS } := by
    rw [loginRoute_state,
      loginLimiter_fresh penv env _ first e hen he (hkey first (List.mem_cons_self _ _)) hfresh]
    exact HitStore.get_set _ _ _
  have hu : (loginRoute penv env st first).state.users = st.users := by
    rw [loginRoute_state]
  have := stateAfterLogins_open penv env e hen he _ qs (loginRoute penv env st first).state 1
    hstep (fun q hq => ⟨hkey q (List.mem_cons_of_mem _ hq), hwin q (List.mem_cons_of_mem _ hq)⟩)
  refine ⟨?_, ?_⟩
  · show (stateAfterLogins penv env (loginRoute penv env st first).state qs).loginHits.get _ = _
    exact this.1
  · show (stateAfterLogins penv env (loginRoute penv env st first).state qs).users = _
    rw [this.2, hu]

theorem login_trace_controller (penv : ProcessEnv) (env : Env) (st : ServerState)
    (email : String) (password : JsVal) (now : Nat) :
    Event.controller "login" none ∈ (login penv env st email password now).trace ∧
    (env.connectFault = none →
      Event.select email ∈ (login penv env st email password now).trace) := by
  unfold login
  repeat' split
  all_goals simp_all

/-- The limiter decision for the request at position `i` of a sequence of login
requests with the same email inside one window. -/
theorem loginLimiter_at (penv : ProcessEnv) (env : Env) (st : ServerState) (e : String)
    (reqs : List Request) (first : Request) (i : Nat) (r : Request)
    (hen : (config penv).NODE_ENV ≠ "test") (he : e ≠ "")
    (hfirst : reqs.head? = some first) (hr : reqs[i]? = some r)
    (hkey : ∀ q ∈ reqs, q.email = .str e)
    (hfresh : ∀ c, st.loginHits.get (.str e) = some c → c.resetTime ≤ first.now)
    (hwin : ∀ q ∈ reqs, q.now < first.now + (config penv).RATE_LIMIT.LOGIN_WINDOW_MS) :
    (loginLimiter (config penv) env.ipKeyGenerator
      (stateAfterLogins penv env st (reqs.take i)).loginHits r).2 =
      (if i + 1 > 5 then some (tooMany "Too many login attempts. Please try again later.")
       else none) ∧
    (stateAfterLogins penv env st (reqs.take i)).users = st.users := by
  have hrmem : r ∈ reqs := List.getElem?_mem hr
  cases reqs with
  | nil => simp at hr
  | cons q tl =>
    have hq : q = first := by simpa using hfirst
    subst hq
    cases i with
    | zero =>
      have : r = q := by simpa using hr.symm
      subst this
      simp only [List.take_zero, stateAfterLogins, List.foldl_nil]
      rw [loginLimiter_fresh penv env _ r e hen he (hkey r hrmem) hfresh]
      simp
    | succ k =>
      have hk : tl[k]? = some r := by simpa using hr
      have hlen : k < tl.length := by
        by_contra hcon
        rw [List.getElem?_eq_none (by omega)] at hk
        exact absurd hk (by simp)
      have hsub : ∀ x ∈ q :: tl.take k, x ∈ q :: tl := by
        intro x hx
        rcases List.mem_cons.1 hx with h | h
        · exact h ▸ List.mem_cons_self _ _
        · exact List.mem_cons_of_mem _ (List.mem_of_mem_take h)
      have hst := stateAfterLogins_window penv env e hen he st q (tl.take k)
        (fun x hx => hkey x (hsub x hx)) hfresh (fun x hx => hwin x (hsub x hx))
      simp only [List.take_succ_cons]
      rw [loginLimiter_open penv env _ r e _ _ hen he (hkey r hrmem) hst.1 (hwin r hrmem)]
      refine ⟨?_, hst.2⟩
      simp only [List.length_take, Nat.min_eq_left (Nat.le_of_lt hlen)]
      have : 1 + k + 1 > 5 ↔ k + 1 + 1 > 5 := by omega
      simp only [this]

/-! ## C6: login rate limit -/

/-- C6. Login rate limit: with rate limiting enabled (and `LOGIN_MAX_ATTEMPTS` 5),
take any sequence of login requests carrying the same non-empty email, all inside
the window opened by the first one, and handle them in order. The requests at
positions 1 to 5 pass the limiter, and those among them that pass validation enter
the controller and (when a connection is obtained) run the store lookup; every
request from position 6 on is answered 429 with an empty trace (no controller, no
store lookup, no password comparison), whatever the passwords submitted. The
table `users` is the same throughout. -/
theorem login_rate_limit (penv : ProcessEnv) (env : Env) (st : ServerState) (e : String)
    (reqs : List Request) (first : Request) (i : Nat) (r : Request)
    (hen : (config penv).NODE_ENV ≠ "test") (he : e ≠ "")
    (hfirst : reqs.head? = some first) (hr : reqs[i]? = some r)
    (hkey : ∀ q ∈ reqs, q.email = .str e)
    (hfresh : ∀ c, st.loginHits.get (.str e) = some c → c.resetTime ≤ first.now)
    (hwin : ∀ q ∈ reqs, q.now < first.now + (config penv).RATE_LIMIT.LOGIN_WINDOW_MS) :
    (i < 5 →
      (loginLimiter (config penv) env.ipKeyGenerator
        (stateAfterLogins penv env st (reqs.take i)).loginHits r).2 = none ∧
      ((validateAuthInput (config penv) env.isEmail env.numberToString r).2 = [] →
        Event.controller "login" none ∈
          (loginRoute penv env (stateAfterLogins penv env st (reqs.take i)) r).trace ∧
        (env.connectFault = none →
          Event.select (trim e) ∈
            (loginRoute penv env (stateAfterLogins penv env st (reqs.take i)) r).trace))) ∧
    (5 ≤ i →
      (loginRoute penv env (stateAfterLogins penv env st (reqs.take i)) r).response =
        tooMany "Too many login attempts. Please try again later." ∧
      (loginRoute penv env (stateAfterLogins penv env st (reqs.take i)) r).response.status
        = 429 ∧
      (loginRoute penv env (stateAfterLogins penv env st (reqs.take i)) r).trace = []) ∧
    (loginRoute penv env (stateAfterLogins penv env st (reqs.take i)) r).state.users =
      st.users := by
  have hat := loginLimiter_at penv env st e reqs first i r hen he hfirst hr hkey hfresh hwin
  refine ⟨?_, ?_, ?_⟩
  · intro hi
    have hpass : (loginLimiter (config penv) env.ipKeyGenerator
        (stateAfterLogins penv env st (reqs.take i)).loginHits r).2 = none := by
      rw [hat.1, if_neg (by omega)]
    refine ⟨hpass, ?_⟩
    intro hval
    rw [loginRoute_of_pass penv env _ r hpass hval]
    have hemail : trim (fieldToString env.numberToString r.email) = trim e := by
      rw [hkey r (List.getElem?_mem hr)]; rfl
    rw [hemail]
    exact login_trace_controller penv env _ _ _ _
  · intro hi
    have hlim : (loginLimiter (config penv) env.ipKeyGenerator
        (stateAfterLogins penv env st (reqs.take i)).loginHits r).2 =
        some (tooMany "Too many login attempts. Please try again later.") := by
      rw [hat.1, if_pos (by omega)]
    unfold loginRoute
    simp only [hlim]
    exact ⟨trivial, rfl, trivial⟩
  · rw [loginRoute_state]
    exact hat.2

/-- C6, on an input: after five wrong passwords for `a@x.com` inside five seconds,
the sixth request, carrying the right password, is answered 429 and nothing is
looked up; the fifth one had passed the limiter. -/
theorem login_rate_limit_witness :
    (loginRoute demoPenv demoEnv (stateAfterLogins demoPenv demoEnv demoState1
      (demoLogins.take 5)) (demoReq "a@x.com" "secret1" 5000)).response.status = 429 ∧
    (loginRoute demoPenv demoEnv (stateAfterLogins demoPenv demoEnv demoState1
      (demoLogins.take 5)) (demoReq "a@x.com" "secret1" 5000)).trace = [] ∧
    (loginLimiter (config demoPenv) demoEnv.ipKeyGenerator
      (stateAfterLogins demoPenv demoEnv demoState1 (demoLogins.take 4)).loginHits
      (demoReq "a@x.com" "wrong-5" 4000)).2 = none :=
  have h6 := login_rate_limit demoPenv demoEnv demoState1 "a@x.com" demoLogins
    (demoReq "a@x.com" "wrong-1" 0) 5 (demoReq "a@x.com" "secret1" 5000)
    (by decide) (by decide) (by decide) (by decide) (by decide)
    (fun c hc => by simp [demoState1, HitStore.get] at hc) (by decide)
  have h5 := login_rate_limit demoPenv demoEnv demoState1 "a@x.com" demoLogins
    (demoReq "a@x.com" "wrong-1" 0) 4 (demoReq "a@x.com" "wrong-5" 4000)
    (by decide) (by decide) (by decide) (by decide) (by decide)
    (fun c hc => by simp [demoState1, HitStore.get] at hc) (by decide)
  ⟨(h6.2.1 (by decide)).2.1, (h6.2.1 (by decide)).2.2, (h5.1 (by decide)).1⟩

/-! ## Lemmas on rejected tokens -/

theorem authTry_trace (penv : ProcessEnv) (env : Env) (req : Request) :
    ∀ ev ∈ (authTry penv env req).2, ev.isController = false := by
  unfold authTry
  repeat' split
  all_goals simp [Event.isController]

theorem protectedRoute_rejected (controller : ServerState → Option Claims → Run)
    (penv : ProcessEnv) (env : Env) (st : ServerState) (req : Request) (t : Thrown)
    (h : (authTry penv env req).1 = .error t)
    (hs : (errorHandler penv (authCatch t)).status = 401) :
    (protectedRoute controller penv env st req).rejected401 := by
  rw [protectedRoute_of_thrown controller penv env st req t h]
  exact ⟨hs, authTry_trace penv env req⟩

theorem authTry_missing (penv : ProcessEnv) (env : Env) (req : Request)
    (h : strTruthy (extractToken req) = false) :
    (authTry penv env req).1 =
      .error (.app (newAppError "Token not found" 401 (some "NO_TOKEN")
        "authMiddleware.js:17")) := by
  unfold authTry
  cases ht : extractToken req with
  | none => rfl
  | some tok =>
    have : tok = "" := by simpa [ht, strTruthy] using h
    simp [this]

/-! ## C7: session gate -/

/-- C7. Session gate: on `POST /logout` and `GET /me`, a request whose token is
missing or empty, unparseable, signed with another secret, or expired is answered
401 and no controller is entered; a request whose token verifies enters the
controller with `req.user` equal to the decoded claims of the token. -/
theorem session_gate (penv : ProcessEnv) (env : Env) (st : ServerState) (req : Request) :
    (strTruthy (extractToken req) = false →
      (logoutRoute penv env st req).rejected401 ∧ (meRoute penv env st req).rejected401) ∧
    (∀ tok, extractToken req = some tok → tok ≠ "" →
      (env.codec.decode tok = none →
        (logoutRoute penv env st req).rejected401 ∧ (meRoute penv env st req).rejected401) ∧
      (∀ t, env.codec.decode tok = some t →
        (t.key ≠ (config penv).JWT.SECRET →
          (logoutRoute penv env st req).rejected401 ∧ (meRoute penv env st req).rejected401) ∧
        (t.key = (config penv).JWT.SECRET → clockTimestamp req.now ≥ t.claims.exp →
          (logoutRoute penv env st req).rejected401 ∧ (meRoute penv env st req).rejected401) ∧
        (t.key = (config penv).JWT.SECRET → clockTimestamp req.now < t.claims.exp →
          (authMiddleware penv env req).user = .ok t.claims ∧
          (logoutRoute penv env st req).trace =
            [.verify tok, .controller "logout" (some t.claims)] ∧
          (meRoute penv env st req).trace =
            [.verify tok, .controller "getUser" (some t.claims)]))) := by
  refine ⟨?_, ?_⟩
  · intro hmiss
    have h := authTry_missing penv env req hmiss
    exact ⟨protectedRoute_rejected logout penv env st req _ h rfl,
      protectedRoute_rejected getUser penv env st req _ h rfl⟩
  · intro tok htok hne
    have htry := authTry_of_token penv env req tok hne htok
    refine ⟨?_, ?_⟩
    · intro hdec
      have h : (authTry penv env req).1 = .error (Thrown.jsonWebToken "jwt malformed") := by
        rw [htry]; simp [jwtVerify, hdec]
      exact ⟨protectedRoute_rejected logout penv env st req _ h rfl,
        protectedRoute_rejected getUser penv env st req _ h rfl⟩
    · intro t hdec
      refine ⟨?_, ?_, ?_⟩
      · intro hkey
        have h : (authTry penv env req).1 =
            .error (Thrown.jsonWebToken "invalid signature") := by
          rw [htry]; simp [jwtVerify, hdec, hkey]
        exact ⟨protectedRoute_rejected logout penv env st req _ h rfl,
          protectedRoute_rejected getUser penv env st req _ h rfl⟩
      · intro hkey hexp
        have h : (authTry penv env req).1 = .error (Thrown.tokenExpired "jwt expired") := by
          rw [htry]; simp [jwtVerify, hdec, hkey]; exact hexp
        exact ⟨protectedRoute_rejected logout penv env st req _ h rfl,
          protectedRoute_rejected getUser penv env st req _ h rfl⟩
      · intro hkey hexp
        have hv : jwtVerify env.codec tok (config penv).JWT.SECRET req.now = .ok t.claims := by
          simp [jwtVerify, hdec, hkey]; exact hexp
        refine ⟨?_, ?_, ?_⟩
        · simp [authMiddleware, htry, hv]
        · rw [logoutRoute_of_claims penv env st req tok _ hne htok hv]
        · rw [meRoute_of_claims penv env st req tok _ hne htok hv]

/-- C7, on inputs: without a token, with a token signed with another secret and
with an expired token `GET /me` is answered 401; with a valid token the controller
runs with the claims of the token. -/
theorem session_gate_witness :
    (meRoute demoPenv demoEnv demoState1 (demoReq "a@x.com" "secret1" 0)).response.status
      = 401 ∧
    (meRoute demoPenv demoEnv demoState1
      (demoCookieReq "jwt.other.1.5.1805.a@x.com" 6000)).response.status = 401 ∧
    (meRoute demoPenv demoEnv demoState1
      (demoCookieReq "jwt.s3cret.1.5.1805.a@x.com" 1805000)).response.status = 401 ∧
    (meRoute demoPenv demoEnv demoState1
      (demoCookieReq "jwt.s3cret.1.5.1805.a@x.com" 6000)).trace =
      [.verify "jwt.s3cret.1.5.1805.a@x.com",
       .controller "getUser" (some { id := 1, email := "a@x.com", iat := 5, exp := 1805 })] :=
  ⟨((session_gate demoPenv demoEnv demoState1 (demoReq "a@x.com" "secret1" 0)).1
      (by decide)).2.1,
   ((((session_gate demoPenv demoEnv demoState1
      (demoCookieReq "jwt.other.1.5.1805.a@x.com" 6000)).2
      "jwt.other.1.5.1805.a@x.com" (by decide) (by decide)).2
      { claims := { id := 1, email := "a@x.com", iat := 5, exp := 1805 }, key := "other" }
      (by decide)).1 (by decide)).2.1,
   ((((session_gate demoPenv demoEnv demoState1
      (demoCookieReq "jwt.s3cret.1.5.1805.a@x.com" 1805000)).2
      "jwt.s3cret.1.5.1805.a@x.com" (by decide) (by decide)).2
      { claims := { id := 1, email := "a@x.com", iat := 5, exp := 1805 }, key := "s3cret" }
      (by decide)).2.1 (by decide) (by decide)).2.1,
   ((((session_gate demoPenv demoEnv demoState1
      (demoCookieReq "jwt.s3cret.1.5.1805.a@x.com" 6000)).2
      "jwt.s3cret.1.5.1805.a@x.com" (by decide) (by decide)).2
      { claims := { id := 1, email := "a@x.com", iat := 5, exp := 1805 }, key := "s3cret" }
      (by decide)).2.2 (by decide) (by decide)).2.2⟩

/-! ## Lemmas on validation -/

theorem register_trace_controller (penv : ProcessEnv) (env : Env) (st : ServerState)
    (email : String) (password : JsVal) :
    Event.controller "register" none ∈ (register penv env st email password).trace := by
  unfold register
  cases hc : env.connectFault with
  | some t => simp
  | none =>
    cases hs : env.selectFault with
    | some t => simp
    | none =>
      by_cases hrows : (selectByEmail st.users email).length > 0
      · simp [hrows]
      · cases hh : env.bcryptHash password (config penv).SECURITY.BCRYPT_ROUNDS with
        | error t => simp [hrows]
        | ok h => cases hi : env.insertFault <;> simp [hrows]

/-! ## C8: validation gate -/

/-- C8. Validation gate: a register (resp. login) request that passes the limiter
enters the controller if and only if its trimmed email is a well-formed address of
at most 255 characters and its password has between 6 and 128 characters, both
taken in the string form the validator measures (`String(value)` for a value that
is not a string). Otherwise the response is 400 `Validation failed` whose details
list one `{field, message}` entry per failed check (address form, address length,
password length), no call to the store or the hasher is made and the table `users`
is unchanged. -/
theorem validation_gate (penv : ProcessEnv) (env : Env) (st : ServerState) (req : Request) :
    ((registerLimiter (config penv) env.ipKeyGenerator st.registerHits req).2 = none →
      (Event.controller "register" none ∈ (registerRoute penv env st req).trace ↔
        (env.isEmail (trim (fieldToString env.numberToString req.email)) = true ∧
          (trim (fieldToString env.numberToString req.email)).length ≤ 255 ∧
          6 ≤ (fieldToString env.numberToString req.password).length ∧
          (fieldToString env.numberToString req.password).length ≤ 128)) ∧
      (¬ (env.isEmail (trim (fieldToString env.numberToString req.email)) = true ∧
          (trim (fieldToString env.numberToString req.email)).length ≤ 255 ∧
          6 ≤ (fieldToString env.numberToString req.password).length ∧
          (fieldToString env.numberToString req.password).length ≤ 128) →
        (registerRoute penv env st req).response =
          validationFailed (validateAuthInput (config penv) env.isEmail env.numberToString req).2 ∧
        (registerRoute penv env st req).response.status = 400 ∧
        (registerRoute penv env st req).trace = [] ∧
        (registerRoute penv env st req).state.users = st.users ∧
        (registerRoute penv env st req).state.nextId = st.nextId)) ∧
    ((loginLimiter (config penv) env.ipKeyGenerator st.loginHits req).2 = none →
      (Event.controller "login" none ∈ (loginRoute penv env st req).trace ↔
        (env.isEmail (trim (fieldToString env.numberToString req.email)) = true ∧
          (trim (fieldToString env.numberToString req.email)).length ≤ 255 ∧
          6 ≤ (fieldToString env.numberToString req.password).length ∧
          (fieldToString env.numberToString req.password).length ≤ 128)) ∧
      (¬ (env.isEmail (trim (fieldToString env.numberToString req.email)) = true ∧
          (trim (fieldToString env.numberToString req.email)).length ≤ 255 ∧
          6 ≤ (fieldToString env.numberToString req.password).length ∧
          (fieldToString env.numberToString req.password).length ≤ 128) →
        (loginRoute penv env st req).response =
          validationFailed (validateAuthInput (config penv) env.isEmail env.numberToString req).2 ∧
        (loginRoute penv env st req).response.status = 400 ∧
        (loginRoute penv env st req).trace = [] ∧
        (loginRoute penv env st req).state.users = st.users ∧
        (loginRoute penv env st req).state.nextId = st.nextId)) ∧
    (validateAuthInput (config penv) env.isEmail env.numberToString req).2 =
      (if env.isEmail (trim (fieldToString env.numberToString req.email)) = true then []
       else [{ param := "email", msg := "Invalid email address" }]) ++
      (if (trim (fieldToString env.numberToString req.email)).length ≤ 255 then []
       else [{ param := "email", msg := "Email must not exceed 255 characters" }]) ++
      (if 6 ≤ (fieldToString env.numberToString req.password).length ∧ (fieldToString env.numberToString req.password).length ≤ 128
       then []
       else [{ param := "password",
               msg := "Password must be between 6 and 128 characters" }]) := by
  have hiff := validateAuthInput_nil_iff (config penv) env.isEmail env.numberToString req
  refine ⟨?_, ?_, validateAuthInput_errors penv env.isEmail env.numberToString req⟩
  · intro hlim
    by_cases hv : (validateAuthInput (config penv) env.isEmail env.numberToString req).2 = []
    · have hvalid := hiff.1 hv
      refine ⟨⟨fun _ => hvalid, fun _ => ?_⟩, fun hn => absurd hvalid hn⟩
      rw [registerRoute_of_pass penv env st req hlim hv]
      exact register_trace_controller penv env _ _ _
    · have hnot := fun h => hv (hiff.2 h)
      have hroute : registerRoute penv env st req =
          { response := validationFailed (validateAuthInput (config penv) env.isEmail env.numberToString req).2
            state := { st with registerHits :=
              (registerLimiter (config penv) env.ipKeyGenerator st.registerHits req).1 }
            trace := [] } := by
        unfold registerRoute
        simp only [hlim, handleValidationErrors]
        cases hl : (validateAuthInput (config penv) env.isEmail env.numberToString req).2 with
        | nil => exact absurd hl hv
        | cons a l => rfl
      refine ⟨⟨fun hmem => ?_, fun h => absurd h hnot⟩, fun _ => ?_⟩
      · rw [hroute] at hmem; simp at hmem
      · rw [hroute]; exact ⟨rfl, rfl, rfl, rfl, rfl⟩
  · intro hlim
    by_cases hv : (validateAuthInput (config penv) env.isEmail env.numberToString req).2 = []
    · have hvalid := hiff.1 hv
      refine ⟨⟨fun _ => hvalid, fun _ => ?_⟩, fun hn => absurd hvalid hn⟩
      rw [loginRoute_of_pass penv env st req hlim hv]
      exact (login_trace_controller penv env _ _ _ _).1
    · have hnot := fun h => hv (hiff.2 h)
      have hroute : loginRoute penv env st req =
          { response := validationFailed (validateAuthInput (config penv) env.isEmail env.numberToString req).2
            state := { st with loginHits :=
              (loginLimiter (config penv) env.ipKeyGenerator st.loginHits req).1 }
            trace := [] } := by
        unfold loginRoute
        simp only [hlim, handleValidationErrors]
        cases hl : (validateAuthInput (config penv) env.isEmail env.numberToString req).2 with
        | nil => exact absurd hl hv
        | cons a l => rfl
      refine ⟨⟨fun hmem => ?_, fun h => absurd h hnot⟩, fun _ => ?_⟩
      · rw [hroute] at hmem; simp at hmem
      · rw [hroute]; exact ⟨rfl, rfl, rfl, rfl, rfl⟩

/-- C8, on an input: a register request with a malformed address and a five-letter
password is answered 400 with two details and makes no call; a well-formed one
enters the controller. -/
theorem validation_gate_witness :
    (registerRoute demoPenv demoEnv demoState (demoReq "not-an-email" "short" 0)).response =
      validationFailed
        [{ param := "email", msg := "Invalid email address" },
         { param := "password", msg := "Password must be between 6 and 128 characters" }] ∧
    (registerRoute demoPenv demoEnv demoState (demoReq "not-an-email" "short" 0)).trace = [] ∧
    Event.controller "register" none ∈
      (registerRoute demoPenv demoEnv demoState (demoReq "a@x.com" "secret1" 0)).trace :=
  have h1 := ((validation_gate demoPenv demoEnv demoState
    (demoReq "not-an-email" "short" 0)).1 (by decide)).2 (by decide)
  ⟨h1.1, h1.2.2.1,
   ((validation_gate demoPenv demoEnv demoState (demoReq "a@x.com" "secret1" 0)).1
     (by decide)).1.2 (by decide)⟩

/-! ## Lemmas on thrown errors and the stack field -/

theorem catchError_of_not_app (failMessage site : String) (t : Thrown)
    (hnot : t.isAppError = false) :
    catchError failMessage site t = newAppError failMessage 500 none site := by
  cases t <;> simp_all [catchError, Thrown.isAppError]

theorem register_of_throws (penv : ProcessEnv) (env : Env) (st : ServerState) (email : String)
    (password : JsVal) (t : Thrown) (hnot : t.isAppError = false)
    (h : registerThrows penv env st email password t) :
    (register penv env st email password).reply =
      .error (newAppError "Registration failed" 500 none "authController.js:57") := by
  unfold register
  rcases h with hc | ⟨hc, hs⟩ | ⟨hc, hs, hrows, hh⟩ | ⟨hc, hs, hrows, ⟨hash, hh⟩, hi⟩
  · simp [hc, catchError_of_not_app _ _ t hnot]
  · simp [hc, hs, catchError_of_not_app _ _ t hnot]
  · simp [hc, hs, hrows, hh, catchError_of_not_app _ _ t hnot]
  · simp [hc, hs, hrows, hh, hi, catchError_of_not_app _ _ t hnot]

theorem login_of_throws (penv : ProcessEnv) (env : Env) (st : ServerState) (email : String)
    (password : JsVal) (now : Nat) (t : Thrown) (hnot : t.isAppError = false)
    (h : loginThrows env st email password t) :
    (login penv env st email password now).reply =
      .error (newAppError "Login failed" 500 none "authController.js:131") := by
  unfold login
  rcases h with hc | ⟨hc, hs⟩ | ⟨hc, hs, u, rest, hrows, hh⟩
  · simp [hc, catchError_of_not_app _ _ t hnot]
  · simp [hc, hs, catchError_of_not_app _ _ t hnot]
  · simp [hc, hs, hrows, hh, catchError_of_not_app _ _ t hnot]

theorem hasStack_errorHandler (penv : ProcessEnv) (e : AppError)
    (h : hasStack (errorHandler penv e) = true) : penv.NODE_ENV = some "development" := by
  by_contra hdev
  simp [hasStack, errorHandler, hdev] at h

theorem hasStack_finish (penv : ProcessEnv) (r : Run) (hr : r.reply.sentWithoutStack)
    (h : hasStack (r.finish penv).response = true) : penv.NODE_ENV = some "development" := by
  unfold Run.finish at h
  cases hrep : r.reply with
  | sent resp =>
    rw [hrep] at hr h
    simp only [Reply.sentWithoutStack] at hr
    simp [hr] at h
  | error e =>
    rw [hrep] at h
    exact hasStack_errorHandler penv e h

theorem register_sentWithoutStack (penv : ProcessEnv) (env : Env) (st : ServerState)
    (email : String) (password : JsVal) :
    (register penv env st email password).reply.sentWithoutStack := by
  unfold register
  cases hc : env.connectFault with
  | some t => simp [Reply.sentWithoutStack]
  | none =>
    cases hs : env.selectFault with
    | some t => simp [Reply.sentWithoutStack]
    | none =>
      by_cases hrows : (selectByEmail st.users email).length > 0
      · simp [hrows, Reply.sentWithoutStack]
      · cases hh : env.bcryptHash password (config penv).SECURITY.BCRYPT_ROUNDS with
        | error t => simp [hrows, Reply.sentWithoutStack]
        | ok h => cases hi : env.insertFault <;> simp [hrows, Reply.sentWithoutStack, hasStack]

theorem login_sentWithoutStack (penv : ProcessEnv) (env : Env) (st : ServerState)
    (email : String) (password : JsVal) (now : Nat) :
    (login penv env st email password now).reply.sentWithoutStack := by
  unfold login
  cases hc : env.connectFault with
  | some t => simp [Reply.sentWithoutStack]
  | none =>
    cases hs : env.selectFault with
    | some t => simp [Reply.sentWithoutStack]
    | none =>
      cases hrows : selectByEmail st.users email with
      | nil => simp [Reply.sentWithoutStack]
      | cons u rest =>
        cases hh : env.bcryptCompare password u.password_hash with
        | error t => simp [hh, Reply.sentWithoutStack]
        | ok b =>
          cases b with
          | false => simp [hh, Reply.sentWithoutStack]
          | true =>
            cases hj : jwtSign env.codec u.id u.email (config penv).JWT.SECRET "30m" now <;>
              simp [hh, hj, Reply.sentWithoutStack, hasStack]

theorem rateLimit_snd (skip : Bool) (windowMs max : Nat) (key : JsVal) (handler : Response)
    (hs : HitStore) (now : Nat) :
    (rateLimit skip windowMs max key handler hs now).2 = none ∨
    (rateLimit skip windowMs max key handler hs now).2 = some handler := by
  unfold rateLimit
  by_cases hskip : skip = true
  · simp [hskip]
  · by_cases hm : (increment windowMs hs key now).2 > max
    · simp [hskip, hm]
    · simp [hskip, hm]

theorem hasStack_validationFailed (errors : List ValidationError) :
    hasStack (validationFailed errors) = false := by
  simp [hasStack, validationFailed]

theorem registerRoute_stack (penv : ProcessEnv) (env : Env) (st : ServerState) (req : Request)
    (h : hasStack (registerRoute penv env st req).response = true) :
    penv.NODE_ENV = some "development" := by
  have hlim : (registerLimiter (config penv) env.ipKeyGenerator st.registerHits req).2 = none ∨
      (registerLimiter (config penv) env.ipKeyGenerator st.registerHits req).2 =
        some (tooMany "Too many registration attempts. Please try again later.") :=
    rateLimit_snd _ _ _ _ _ _ _
  rcases hlim with hl | hl
  · cases hv : (validateAuthInput (config penv) env.isEmail env.numberToString req).2 with
    | nil =>
      rw [registerRoute_of_pass penv env st req hl hv] at h
      exact hasStack_finish penv _ (register_sentWithoutStack penv env _ _ _) h
    | cons a l =>
      unfold registerRoute at h
      simp only [hl, hv, handleValidationErrors] at h
      simp [hasStack, validationFailed] at h
  · unfold registerRoute at h
    simp only [hl] at h
    simp [hasStack, tooMany] at h

theorem loginRoute_stack (penv : ProcessEnv) (env : Env) (st : ServerState) (req : Request)
    (h : hasStack (loginRoute penv env st req).response = true) :
    penv.NODE_ENV = some "development" := by
  have hlim : (loginLimiter (config penv) env.ipKeyGenerator st.loginHits req).2 = none ∨
      (loginLimiter (config penv) env.ipKeyGenerator st.loginHits req).2 =
        some (tooMany "Too many login attempts. Please try again later.") :=
    rateLimit_snd _ _ _ _ _ _ _
  rcases hlim with hl | hl
  · cases hv : (validateAuthInput (config penv) env.isEmail env.numberToString req).2 with
    | nil =>
      rw [loginRoute_of_pass penv env st req hl hv] at h
      exact hasStack_finish penv _ (login_sentWithoutStack penv env _ _ _ _) h
    | cons a l =>
      unfold loginRoute at h
      simp only [hl, hv, handleValidationErrors] at h
      simp [hasStack, validationFailed] at h
  · unfold loginRoute at h
    simp only [hl] at h
    simp [hasStack, tooMany] at h

theorem protectedRoute_stack (controller : ServerState → Option Claims → Run)
    (hc : ∀ st u, (controller st u).reply.sentWithoutStack)
    (penv : ProcessEnv) (env : Env) (st : ServerState) (req : Request)
    (h : hasStack (protectedRoute controller penv env st req).response = true) :
    penv.NODE_ENV = some "development" := by
  unfold protectedRoute at h
  simp only [] at h
  split at h
  · exact hasStack_errorHandler penv _ h
  · exact hasStack_finish penv _ (hc _ _) h

theorem logout_sentWithoutStack (st : ServerState) (u : Option Claims) :
    (logout st u).reply.sentWithoutStack := by
  cases u <;> simp [logout, Reply.sentWithoutStack, hasStack]

theorem getUser_sentWithoutStack (st : ServerState) (u : Option Claims) :
    (getUser st u).reply.sentWithoutStack := by
  cases u <;> simp [getUser, Reply.sentWithoutStack, hasStack]

/-! ## C9: internal errors do not leak -/

/-- C9. Internal errors do not leak: when a store or hasher call inside `register`
(resp. `login`) throws anything that is not an `AppError`, the response is the
fixed one built from `new AppError('Registration failed', 500)` (resp.
`'Login failed'`): status 500, that message, error code `INTERNAL_ERROR`; it does
not depend on the message or stack of what was thrown. On all four routes a
`stack` field is present in a response only when `process.env.NODE_ENV` is
`development`. -/
theorem internal_errors_do_not_leak (penv : ProcessEnv) (env : Env) (st : ServerState)
    (req : Request) (t : Thrown) (hnot : t.isAppError = false) :
    ((registerLimiter (config penv) env.ipKeyGenerator st.registerHits req).2 = none →
      (validateAuthInput (config penv) env.isEmail env.numberToString req).2 = [] →
      registerThrows penv env st (trim (fieldToString env.numberToString req.email)) req.password t →
      (registerRoute penv env st req).response =
        errorHandler penv (newAppError "Registration failed" 500 none "authController.js:57") ∧
      (registerRoute penv env st req).response.status = 500 ∧
      (registerRoute penv env st req).response.field "error" =
        some (.val (.str "Registration failed")) ∧
      (registerRoute penv env st req).response.field "errorCode" =
        some (.val (.str "INTERNAL_ERROR"))) ∧
    ((loginLimiter (config penv) env.ipKeyGenerator st.loginHits req).2 = none →
      (validateAuthInput (config penv) env.isEmail env.numberToString req).2 = [] →
      loginThrows env st (trim (fieldToString env.numberToString req.email)) req.password t →
      (loginRoute penv env st req).response =
        errorHandler penv (newAppError "Login failed" 500 none "authController.js:131") ∧
      (loginRoute penv env st req).response.status = 500 ∧
      (loginRoute penv env st req).response.field "error" =
        some (.val (.str "Login failed")) ∧
      (loginRoute penv env st req).response.field "errorCode" =
        some (.val (.str "INTERNAL_ERROR"))) ∧
    (hasStack (registerRoute penv env st req).response = true →
      penv.NODE_ENV = some "development") ∧
    (hasStack (loginRoute penv env st req).response = true →
      penv.NODE_ENV = some "development") ∧
    (hasStack (logoutRoute penv env st req).response = true →
      penv.NODE_ENV = some "development") ∧
    (hasStack (meRoute penv env st req).response = true →
      penv.NODE_ENV = some "development") := by
  refine ⟨?_, ?_, registerRoute_stack penv env st req, loginRoute_stack penv env st req,
    protectedRoute_stack logout logout_sentWithoutStack penv env st req,
    protectedRoute_stack getUser getUser_sentWithoutStack penv env st req⟩
  · intro hlim hval hthrow
    have hrep := register_of_throws penv env
      { st with
        registerHits := (registerLimiter (config penv) env.ipKeyGenerator st.registerHits req).1 }
      (trim (fieldToString env.numberToString req.email)) req.password t hnot hthrow
    have hresp : (registerRoute penv env st req).response =
        errorHandler penv (newAppError "Registration failed" 500 none "authController.js:57") := by
      rw [registerRoute_of_pass penv env st req hlim hval]
      simp only [Run.finish, hrep]
    rw [hresp]
    exact ⟨rfl, rfl, rfl, rfl⟩
  · intro hlim hval hthrow
    have hrep := login_of_throws penv env
      { st with loginHits := (loginLimiter (config penv) env.ipKeyGenerator st.loginHits req).1 }
      (trim (fieldToString env.numberToString req.email)) req.password req.now t hnot hthrow
    have hresp : (loginRoute penv env st req).response =
        errorHandler penv (newAppError "Login failed" 500 none "authController.js:131") := by
      rw [loginRoute_of_pass penv env st req hlim hval]
      simp only [Run.finish, hrep]
    rw [hresp]
    exact ⟨rfl, rfl, rfl, rfl⟩

/-- C9, on an input: two runs of `register` against a database that is down, with
different error messages and stacks, get the same 500 response. -/
theorem internal_errors_do_not_leak_witness :
    (registerRoute demoPenv (demoEnvDown "connect ECONNREFUSED 127.0.0.1:3306" "at Socket.a")
      demoState (demoReq "a@x.com" "secret1" 0)).response.status = 500 ∧
    (registerRoute demoPenv (demoEnvDown "connect ECONNREFUSED 127.0.0.1:3306" "at Socket.a")
      demoState (demoReq "a@x.com" "secret1" 0)).response =
    (registerRoute demoPenv (demoEnvDown "Access denied for user root" "at Packet.b")
      demoState (demoReq "a@x.com" "secret1" 0)).response :=
  have h1 := (internal_errors_do_not_leak demoPenv
    (demoEnvDown "connect ECONNREFUSED 127.0.0.1:3306" "at Socket.a") demoState
    (demoReq "a@x.com" "secret1" 0)
    (Thrown.error "connect ECONNREFUSED 127.0.0.1:3306" "at Socket.a") rfl).1
    (by decide) (by decide) (Or.inl rfl)
  have h2 := (internal_errors_do_not_leak demoPenv
    (demoEnvDown "Access denied for user root" "at Packet.b") demoState
    (demoReq "a@x.com" "secret1" 0)
    (Thrown.error "Access denied for user root" "at Packet.b") rfl).1
    (by decide) (by decide) (Or.inl rfl)
  ⟨h1.2.1, h1.1.trans h2.1.symm⟩

/-! ## C10: token source preference -/

/-- C10. Token source preference: for a request to a protected route with a
non-empty token cookie, the token handed to `jwt.verify` is the cookie value
whatever the `Authorization` header holds, and the outcome of `POST /logout` and
`GET /me` does not depend on the header; the header (with the first `Bearer `
removed) is the token only when the cookie is absent or empty. -/
theorem cookie_token_preferred (penv : ProcessEnv) (env : Env) (st : ServerState)
    (req : Request) (c : String) (header : Option String)
    (hc : req.cookieToken = some c) (hne : c ≠ "") :
    extractToken { req with authorization := header } = some c ∧
    authTry penv env { req with authorization := header } =
      (jwtVerify env.codec c (config penv).JWT.SECRET req.now, [.verify c]) ∧
    logoutRoute penv env st { req with authorization := header } =
      logoutRoute penv env st req ∧
    meRoute penv env st { req with authorization := header } = meRoute penv env st req ∧
    (∀ r : Request, strTruthy r.cookieToken = false →
      extractToken r = r.authorization.map (fun h => replaceFirst h "Bearer " "")) := by
  have h1 : extractToken { req with authorization := header } = some c :=
    extractToken_cookie _ c hne hc
  have h2 : extractToken req = some c := extractToken_cookie _ c hne hc
  have t1 := authTry_of_token penv env { req with authorization := header } c hne h1
  have t2 := authTry_of_token penv env req c hne h2
  refine ⟨h1, t1, ?_, ?_, ?_⟩
  · simp only [logoutRoute, protectedRoute, authMiddleware, t1, t2]
  · simp only [meRoute, protectedRoute, authMiddleware, t1, t2]
  · intro r hr
    simp [extractToken, hr]

/-- C10, on an input: with cookie `jwt.s3cret.1.5.1805.a@x.com` and a header
carrying another token, the cookie is the token verified. -/
theorem cookie_token_preferred_witness :
    extractToken
      { demoCookieReq "jwt.s3cret.1.5.1805.a@x.com" 6000 with
        authorization := some "Bearer jwt.other.9.5.1805.z@x.com" } =
      some "jwt.s3cret.1.5.1805.a@x.com" ∧
    meRoute demoPenv demoEnv demoState1
      { demoCookieReq "jwt.s3cret.1.5.1805.a@x.com" 6000 with
        authorization := some "Bearer jwt.other.9.5.1805.z@x.com" } =
      meRoute demoPenv demoEnv demoState1 (demoCookieReq "jwt.s3cret.1.5.1805.a@x.com" 6000) :=
  have h := cookie_token_preferred demoPenv demoEnv demoState1
    (demoCookieReq "jwt.s3cret.1.5.1805.a@x.com" 6000) "jwt.s3cret.1.5.1805.a@x.com"
    (some "Bearer jwt.other.9.5.1805.z@x.com") rfl (by decide)
  ⟨h.1, h.2.2.2.1⟩

/-! ## Lemmas on counting hits -/

theorem increment_get (windowMs : Nat) (hs : HitStore) (key : JsVal) (now : Nat) :
    ∃ c, (increment windowMs hs key now).1.get key = some c ∧ 1 ≤ c.totalHits := by
  unfold increment
  refine ⟨_, HitStore.get_set _ _ _, ?_⟩
  simp

theorem rateLimit_fst (windowMs max : Nat) (key : JsVal) (handler : Response)
    (hs : HitStore) (now : Nat) :
    (rateLimit false windowMs max key handler hs now).1 = (increment windowMs hs key now).1 := by
  unfold rateLimit
  by_cases hm : (increment windowMs hs key now).2 > max <;> simp [hm]

/-! ## C11: login rate-limit key -/

/-- C11, counterexample. The login request with email `not-an-email`, a string
that is not an address, is keyed by that string: the key is neither the source
address nor the key the library derives from it. A number is a key as well. -/
theorem login_key_malformed_counterexample :
    demoEnv.isEmail "not-an-email" = false ∧
    loginKey demoEnv.ipKeyGenerator (demoReq "not-an-email" "secret1" 0) =
      JsVal.str "not-an-email" ∧
    loginKey demoEnv.ipKeyGenerator (demoReq "not-an-email" "secret1" 0) ≠
      JsVal.str (demoReq "not-an-email" "secret1" 0).ip ∧
    loginKey demoEnv.ipKeyGenerator (demoReq "not-an-email" "secret1" 0) ≠
      demoEnv.ipKeyGenerator (.address (demoReq "not-an-email" "secret1" 0).ip) ∧
    loginKey demoEnv.ipKeyGenerator
      { demoReq "not-an-email" "secret1" 0 with email := JsVal.num 7 } = JsVal.num 7 := by
  decide

/-- C11, amended. The key of the login limiter is the submitted email value
whenever that value is truthy, well-formed or not: every non-empty string, every
non-zero number and `true`, whatever `isEmail` says of it and whatever the key
function of the library returns. With the limiter enabled, the hit of the request
is counted under that key. -/
theorem login_key (penv : ProcessEnv) (env : Env) (hs : HitStore) (req : Request) :
    (∀ s, req.email = .str s → s ≠ "" → loginKey env.ipKeyGenerator req = .str s) ∧
    (∀ n, req.email = .num n → n ≠ 0 → loginKey env.ipKeyGenerator req = .num n) ∧
    (req.email = .bool true → loginKey env.ipKeyGenerator req = .bool true) ∧
    (req.email.truthy = true → loginKey env.ipKeyGenerator req = req.email) ∧
    ((config penv).NODE_ENV ≠ "test" →
      ∃ c, (loginLimiter (config penv) env.ipKeyGenerator hs req).1.get
          (loginKey env.ipKeyGenerator req) = some c ∧ 1 ≤ c.totalHits) := by
  refine ⟨?_, ?_, ?_, ?_, ?_⟩
  · intro s hs hne
    simp [loginKey, hs, JsVal.truthy, hne]
  · intro n hn hne
    simp [loginKey, hn, JsVal.truthy, hne]
  · intro hb
    simp [loginKey, hb, JsVal.truthy]
  · intro ht
    simp [loginKey, ht]
  · intro hen
    have hskip : ((config penv).NODE_ENV == "test") = false := by simpa using hen
    unfold loginLimiter
    rw [hskip, rateLimit_fst]
    exact increment_get _ _ _ _

/-- C11 amended, on inputs: a malformed address is the key, and so is a padded
one. -/
theorem login_key_witness :
    loginKey demoEnv.ipKeyGenerator (demoReq "not-an-email" "secret1" 0) =
      .str "not-an-email" ∧
    loginKey demoEnv.ipKeyGenerator (demoReq " a@x.com" "secret1" 0) = .str " a@x.com" :=
  ⟨(login_key demoPenv demoEnv [] (demoReq "not-an-email" "secret1" 0)).1 "not-an-email" rfl
      (by decide),
   (login_key demoPenv demoEnv [] (demoReq " a@x.com" "secret1" 0)).1 " a@x.com" rfl
      (by decide)⟩

/-! ## C12: configured token lifetime -/

/-- C12, the code at the failing input. With `JWT_EXPIRY=1h` the configured
lifetime is one hour (3 600 000 ms), yet the token `login` issues at 5 s carries
`exp = iat + 1800`, the cookie has `maxAge` 1 800 000 ms, and `GET /me` with that
token is rejected as expired 1800 s after issuance. -/
theorem login_ignores_configured_expiry :
    (config demoPenvHour).JWT.EXPIRY = "1h" ∧
    ms (config demoPenvHour).JWT.EXPIRY = some 3600000 ∧
    (loginRoute demoPenvHour demoEnv demoState1 (demoReq "a@x.com" "secret1" 5000)).response =
      { status := 200
        body :=
          [("message", .val (.str "Successfully logged in")),
           ("token", .val (.str "jwt.s3cret.1.5.1805.a@x.com")),
           ("user", .obj [("id", .num 1), ("email", .str "a@x.com")])]
        cookies :=
          [.set { name := "token", value := "jwt.s3cret.1.5.1805.a@x.com", httpOnly := true,
                  secure := true, sameSite := "strict", maxAge := 1800000 }] } ∧
    demoCodec.decode "jwt.s3cret.1.5.1805.a@x.com" =
      some { claims := { id := 1, email := "a@x.com", iat := 5, exp := 1805 }, key := "s3cret" } ∧
    (meRoute demoPenvHour demoEnv demoState1
      (demoCookieReq "jwt.s3cret.1.5.1805.a@x.com" 1805000)).response.field "errorCode" =
      some (.val (.str "TOKEN_EXPIRED")) := by
  decide

/-! ## C13: logout does not revoke -/

/-- C13. Logout does not revoke: `POST /logout` leaves the server state (table
`users`, both limiter tables) as it was, whatever the request; and for a token
that verifies, after the logout made with it (answered 200), `GET /me` with the
same token at any clock before its expiry still returns 200 with the `{id, email}`
of the token, the same response as without the logout. -/
theorem logout_does_not_revoke (penv : ProcessEnv) (env : Env) (st : ServerState)
    (req req2 : Request) (tok : String) (t : SignedToken)
    (htok : extractToken req = some tok) (hne : tok ≠ "")
    (hdec : env.codec.decode tok = some t) (hkey : t.key = (config penv).JWT.SECRET)
    (hnow : clockTimestamp req.now < t.claims.exp)
    (htok2 : extractToken req2 = some tok)
    (hnow2 : clockTimestamp req2.now < t.claims.exp) :
    (∀ r : Request, (logoutRoute penv env st r).state = st) ∧
    (logoutRoute penv env st req).response.status = 200 ∧
    (meRoute penv env (logoutRoute penv env st req).state req2).response =
      { status := 200
        body := [("user", .obj [("id", .num t.claims.id), ("email", .str t.claims.email)])]
        cookies := [] } ∧
    (meRoute penv env (logoutRoute penv env st req).state req2).response =
      (meRoute penv env st req2).response := by
  have hstate : ∀ r : Request, (logoutRoute penv env st r).state = st := by
    intro r
    unfold logoutRoute protectedRoute
    simp only []
    split
    · rfl
    · simp only [Run.finish, logout]
  have hv : jwtVerify env.codec tok (config penv).JWT.SECRET req.now = .ok t.claims := by
    simp [jwtVerify, hdec, hkey]; exact hnow
  have hv2 : jwtVerify env.codec tok (config penv).JWT.SECRET req2.now = .ok t.claims := by
    simp [jwtVerify, hdec, hkey]; exact hnow2
  refine ⟨hstate, ?_, ?_, ?_⟩
  · rw [logoutRoute_of_claims penv env st req tok _ hne htok hv]
  · rw [meRoute_of_claims penv env _ req2 tok _ hne htok2 hv2]
  · rw [hstate req]

/-- C13, on an input: after a logout with the token issued at 5 s, `GET /me` with
the same token one second later still answers 200 with the identity. -/
theorem logout_does_not_revoke_witness :
    (meRoute demoPenv demoEnv
      (logoutRoute demoPenv demoEnv demoState1
        (demoCookieReq "jwt.s3cret.1.5.1805.a@x.com" 6000)).state
      (demoCookieReq "jwt.s3cret.1.5.1805.a@x.com" 7000)).response =
      { status := 200
        body := [("user", .obj [("id", .num 1), ("email", .str "a@x.com")])]
        cookies := [] } :=
  (logout_does_not_revoke demoPenv demoEnv demoState1
    (demoCookieReq "jwt.s3cret.1.5.1805.a@x.com" 6000)
    (demoCookieReq "jwt.s3cret.1.5.1805.a@x.com" 7000) "jwt.s3cret.1.5.1805.a@x.com"
    { claims := { id := 1, email := "a@x.com", iat := 5, exp := 1805 }, key := "s3cret" }
    (by decide) (by decide) (by decide) (by decide) (by decide) (by decide) (by decide)).2.2.1

/-! ## Lemmas on what the controllers send -/

theorem register_sent (penv : ProcessEnv) (env : Env) (st : ServerState) (email : String)
    (password : JsVal) (r : Response)
    (h : (register penv env st email password).reply = .sent r) :
    r =
      { status := 201
        body :=
          [("message", JField.val (JVal.str "User successfully registered")),
           ("userId", JField.val (JVal.num st.nextId))]
        cookies := [] } := by
  unfold register at h
  cases hc : env.connectFault with
  | some t => simp [hc] at h
  | none =>
    cases hs : env.selectFault with
    | some t => simp [hc, hs] at h
    | none =>
      by_cases hrows : (selectByEmail st.users email).length > 0
      · simp [hc, hs, hrows] at h
      · cases hh : env.bcryptHash password (config penv).SECURITY.BCRYPT_ROUNDS with
        | error t => simp [hc, hs, hrows, hh] at h
        | ok hashed =>
          cases hi : env.insertFault with
          | some t => simp [hc, hs, hrows, hh, hi] at h
          | none =>
            simp [hc, hs, hrows, hh, hi] at h
            exact h.symm

theorem login_sent (penv : ProcessEnv) (env : Env) (st : ServerState) (email : String)
    (password : JsVal) (now : Nat) (r : Response)
    (h : (login penv env st email password now).reply = .sent r) :
    ∃ u, u ∈ st.users ∧ u.email = email ∧
      env.bcryptCompare password u.password_hash = .ok true ∧
      r =
        { status := 200
          body :=
            [("message", JField.val (JVal.str "Successfully logged in")),
             ("token", JField.val (JVal.str (env.codec.encode (issuedToken penv u now)))),
             ("user", JField.obj [("id", JVal.num u.id), ("email", JVal.str u.email)])]
          cookies :=
            [.set
              { name := "token"
                value := env.codec.encode (issuedToken penv u now)
                httpOnly := true
                secure := (config penv).NODE_ENV == "production"
                sameSite := "strict"
                maxAge := 30 * 60 * 1000 }] } ∧
      Event.sign u.id u.email ∈ (login penv env st email password now).trace := by
  cases hc : env.connectFault with
  | some t => simp [login, hc] at h
  | none =>
    cases hs : env.selectFault with
    | some t => simp [login, hc, hs] at h
    | none =>
      cases hrows : selectByEmail st.users email with
      | nil => simp [login, hc, hs, hrows] at h
      | cons u rest =>
        have hu : u ∈ selectByEmail st.users email := by rw [hrows]; exact List.mem_cons_self _ _
        have hmem : u ∈ st.users ∧ u.email = email := by
          simpa [selectByEmail] using hu
        cases hh : env.bcryptCompare password u.password_hash with
        | error t => simp [login, hc, hs, hrows, hh] at h
        | ok b =>
          cases b with
          | false => simp [login, hc, hs, hrows, hh] at h
          | true =>
            rw [login_success penv env st email password now u rest hc hs hrows hh] at h ⊢
            refine ⟨u, hmem.1, hmem.2, hh, ?_, by simp⟩
            simp only [Reply.sent.injEq] at h
            exact h.symm

theorem getUser_sent (st : ServerState) (user : Option Claims) (r : Response)
    (h : (getUser st user).reply = .sent r) :
    ∃ c, user = some c ∧
      r =
        { status := 200
          body := [("user", JField.obj [("id", JVal.num c.id), ("email", JVal.str c.email)])]
          cookies := [] } := by
  cases user with
  | none => simp [getUser] at h
  | some c =>
    refine ⟨c, rfl, ?_⟩
    simp [getUser] at h
    exact h.symm

/-! ## C14: the password hash never leaves the core -/

/-- C14. The password hash never leaves the core: the response `register` sends on
success is exactly a message and the new user id; the response `login` sends on
success is exactly a message, the token and a user object with exactly the fields
`id` and `email` of the row found, the payload handed to `jwt.sign` being those
`id` and `email` (the library adds `iat` and `exp`); the response of `getUser` is
exactly a user object with the `id` and `email` of the claims. The token does not
depend on the stored `password_hash`, which occurs in none of these bodies. -/
theorem password_hash_never_leaves (penv : ProcessEnv) (env : Env) (st : ServerState)
    (email : String) (password : JsVal) (now : Nat) (user : Option Claims) :
    (∀ r, (register penv env st email password).reply = .sent r →
      r.status = 201 ∧
      r.body =
        [("message", .val (.str "User successfully registered")),
         ("userId", .val (.num st.nextId))]) ∧
    (∀ r, (login penv env st email password now).reply = .sent r →
      ∃ u, u ∈ st.users ∧ u.email = email ∧
        r.status = 200 ∧
        r.body =
          [("message", .val (.str "Successfully logged in")),
           ("token", .val (.str (env.codec.encode (issuedToken penv u now)))),
           ("user", .obj [("id", .num u.id), ("email", .str u.email)])] ∧
        Event.sign u.id u.email ∈ (login penv env st email password now).trace ∧
        (issuedToken penv u now).claims =
          { id := u.id, email := u.email, iat := clockTimestamp now,
            exp := clockTimestamp now + 1800 }) ∧
    (∀ r, (getUser st user).reply = .sent r →
      ∃ c, user = some c ∧
        r.status = 200 ∧
        r.body = [("user", .obj [("id", .num c.id), ("email", .str c.email)])]) ∧
    (∀ (u : User) (h : String),
      issuedToken penv { u with password_hash := h } now = issuedToken penv u now) := by
  refine ⟨?_, ?_, ?_, fun _ _ => rfl⟩
  · intro r hr
    rw [register_sent penv env st email password r hr]
    exact ⟨rfl, rfl⟩
  · intro r hr
    obtain ⟨u, hmem, hemail, _, hbody, hsign⟩ := login_sent penv env st email password now r hr
    refine ⟨u, hmem, hemail, ?_, ?_, hsign, rfl⟩
    · rw [hbody]
    · rw [hbody]
  · intro r hr
    obtain ⟨c, hc, hbody⟩ := getUser_sent st user r hr
    exact ⟨c, hc, by rw [hbody], by rw [hbody]⟩

/-! ## C15: responses to rejected tokens -/

/-- C15, counterexample. On `GET /me` the responses for a missing token, for a
token signed with another secret and for an expired token all have status 401, but
their messages and error codes differ. -/
theorem unauthorized_responses_differ_counterexample :
    (meRoute demoPenv demoEnv demoState1 (demoReq "a@x.com" "secret1" 6000)).response =
      { status := 401
        body := [("error", .val (.str "Token not found")), ("statusCode", .val (.num 401)),
                 ("errorCode", .val (.str "NO_TOKEN"))]
        cookies := [] } ∧
    (meRoute demoPenv demoEnv demoState1
      (demoCookieReq "jwt.other.1.5.1805.a@x.com" 6000)).response =
      { status := 401
        body := [("error", .val (.str "Invalid token")), ("statusCode", .val (.num 401)),
                 ("errorCode", .val (.str "INVALID_TOKEN"))]
        cookies := [] } ∧
    (meRoute demoPenv demoEnv demoState1
      (demoCookieReq "jwt.s3cret.1.5.1805.a@x.com" 1805000)).response =
      { status := 401
        body := [("error", .val (.str "Token expired")), ("statusCode", .val (.num 401)),
                 ("errorCode", .val (.str "TOKEN_EXPIRED"))]
        cookies := [] } ∧
    (meRoute demoPenv demoEnv demoState1 (demoReq "a@x.com" "secret1" 6000)).response ≠
      (meRoute demoPenv demoEnv demoState1
        (demoCookieReq "jwt.other.1.5.1805.a@x.com" 6000)).response ∧
    (meRoute demoPenv demoEnv demoState1
      (demoCookieReq "jwt.other.1.5.1805.a@x.com" 6000)).response ≠
      (meRoute demoPenv demoEnv demoState1
        (demoCookieReq "jwt.s3cret.1.5.1805.a@x.com" 1805000)).response := by
  decide

/-- C15, amended. On `POST /logout` and `GET /me` the error responses for a
missing token, for a malformed token (unparseable, or signed with another secret)
and for an expired token all have status 401, and each kind has its own message
and error code: `Token not found` with `NO_TOKEN`, `Invalid token` with
`INVALID_TOKEN`, `Token expired` with `TOKEN_EXPIRED`. The two routes answer
alike. -/
theorem unauthorized_responses (penv : ProcessEnv) (env : Env) (st : ServerState)
    (req : Request) :
    (strTruthy (extractToken req) = false →
      (meRoute penv env st req).response.status = 401 ∧
      (meRoute penv env st req).response.field "error" = some (.val (.str "Token not found")) ∧
      (meRoute penv env st req).response.field "errorCode" = some (.val (.str "NO_TOKEN")) ∧
      (logoutRoute penv env st req).response = (meRoute penv env st req).response) ∧
    (∀ tok, extractToken req = some tok → tok ≠ "" →
      ((env.codec.decode tok = none ∨
          ∃ t, env.codec.decode tok = some t ∧ t.key ≠ (config penv).JWT.SECRET) →
        (meRoute penv env st req).response.status = 401 ∧
        (meRoute penv env st req).response.field "error" =
          some (.val (.str "Invalid token")) ∧
        (meRoute penv env st req).response.field "errorCode" =
          some (.val (.str "INVALID_TOKEN")) ∧
        (logoutRoute penv env st req).response = (meRoute penv env st req).response) ∧
      ((∃ t, env.codec.decode tok = some t ∧ t.key = (config penv).JWT.SECRET ∧
          clockTimestamp req.now ≥ t.claims.exp) →
        (meRoute penv env st req).response.status = 401 ∧
        (meRoute penv env st req).response.field "error" =
          some (.val (.str "Token expired")) ∧
        (meRoute penv env st req).response.field "errorCode" =
          some (.val (.str "TOKEN_EXPIRED")) ∧
        (logoutRoute penv env st req).response = (meRoute penv env st req).response)) := by
  refine ⟨?_, ?_⟩
  · intro hmiss
    have h := authTry_missing penv env req hmiss
    unfold meRoute logoutRoute
    rw [protectedRoute_of_thrown getUser penv env st req _ h,
      protectedRoute_of_thrown logout penv env st req _ h]
    exact ⟨rfl, rfl, rfl, rfl⟩
  · intro tok htok hne
    have htry := authTry_of_token penv env req tok hne htok
    refine ⟨?_, ?_⟩
    · intro hbad
      have h : ∃ m, (authTry penv env req).1 = .error (Thrown.jsonWebToken m) := by
        rcases hbad with hdec | ⟨t, hdec, hkey⟩
        · exact ⟨"jwt malformed", by rw [htry]; simp [jwtVerify, hdec]⟩
        · exact ⟨"invalid signature", by rw [htry]; simp [jwtVerify, hdec, hkey]⟩
      obtain ⟨m, hm⟩ := h
      unfold meRoute logoutRoute
      rw [protectedRoute_of_thrown getUser penv env st req _ hm,
        protectedRoute_of_thrown logout penv env st req _ hm]
      exact ⟨rfl, rfl, rfl, rfl⟩
    · rintro ⟨t, hdec, hkey, hexp⟩
      have h : (authTry penv env req).1 = .error (Thrown.tokenExpired "jwt expired") := by
        rw [htry]; simp [jwtVerify, hdec, hkey]; exact hexp
      unfold meRoute logoutRoute
      rw [protectedRoute_of_thrown getUser penv env st req _ h,
        protectedRoute_of_thrown logout penv env st req _ h]
      exact ⟨rfl, rfl, rfl, rfl⟩

/-- C15 amended, on inputs: no token gives `NO_TOKEN`, an expired token gives
`TOKEN_EXPIRED`. -/
theorem unauthorized_responses_witness :
    (meRoute demoPenv demoEnv demoState1 (demoReq "a@x.com" "secret1" 6000)).response.field
      "errorCode" = some (.val (.str "NO_TOKEN")) ∧
    (meRoute demoPenv demoEnv demoState1
      (demoCookieReq "jwt.s3cret.1.5.1805.a@x.com" 1805000)).response.field "errorCode" =
      some (.val (.str "TOKEN_EXPIRED")) :=
  ⟨((unauthorized_responses demoPenv demoEnv demoState1 (demoReq "a@x.com" "secret1" 6000)).1
      (by decide)).2.2.1,
   (((unauthorized_responses demoPenv demoEnv demoState1
      (demoCookieReq "jwt.s3cret.1.5.1805.a@x.com" 1805000)).2
      "jwt.s3cret.1.5.1805.a@x.com" (by decide) (by decide)).2
      ⟨{ claims := { id := 1, email := "a@x.com", iat := 5, exp := 1805 }, key := "s3cret" },
        by decide, by decide, by decide⟩).2.2.1⟩

/-! ## C16: credential checks per identity -/

/-- C16, the code at the failing input. With rate limiting enabled, six login
requests against the stored identity `a@x.com` are made inside six seconds, five
with the email as stored and the sixth with a leading space. The validator trims
the sixth to `a@x.com`, but the limiter has counted it under another key: all six
are answered 401 (none 429) and all six run the store lookup and the password
comparison for `a@x.com`. -/
theorem login_limit_bypassed_by_padding :
    (config demoPenv).NODE_ENV ≠ "test" ∧
    (config demoPenv).RATE_LIMIT.LOGIN_MAX_ATTEMPTS = 5 ∧
    (∀ q ∈ demoPaddedLogins,
      trim (fieldToString demoEnv.numberToString q.email) = "a@x.com" ∧
      q.now < 0 + (config demoPenv).RATE_LIMIT.LOGIN_WINDOW_MS) ∧
    loginKey demoEnv.ipKeyGenerator (demoReq "a@x.com" "wrong-5" 4000) ≠
      loginKey demoEnv.ipKeyGenerator (demoReq " a@x.com" "wrong-6" 5000) ∧
    (loginOutcomes demoPenv demoEnv demoState1 demoPaddedLogins).map
      (fun o => o.response.status) = [401, 401, 401, 401, 401, 401] ∧
    (∀ o ∈ loginOutcomes demoPenv demoEnv demoState1 demoPaddedLogins,
      Event.select "a@x.com" ∈ o.trace ∧
      ∃ p, p ∈ [JsVal.str "wrong-1", .str "wrong-2", .str "wrong-3", .str "wrong-4",
          .str "wrong-5", .str "wrong-6"] ∧
        Event.compare p "$2a$secret1" ∈ o.trace) := by
  decide

/-! ## Lemmas on the first occurrence of a pattern -/

theorem replaceFirstChars_first (pat : List Char) (hpat : pat ≠ []) :
    ∀ l : List Char,
      (∃ pre post : List Char,
        l = pre ++ pat ++ post ∧
        (∀ pre2 post2 : List Char, l = pre2 ++ pat ++ post2 → pre.length ≤ pre2.length) ∧
        replaceFirstChars pat [] l = pre ++ post) ∨
      ((∀ pre2 post2 : List Char, l ≠ pre2 ++ pat ++ post2) ∧
        replaceFirstChars pat [] l = l) := by
  intro l
  induction l with
  | nil =>
    right
    refine ⟨?_, by simp [replaceFirstChars]⟩
    intro pre2 post2 h
    have hlen := congrArg List.length h
    simp at hlen
    exact hpat (List.length_eq_zero.1 (by omega))
  | cons c cs ih =>
    by_cases hp : pat.isPrefixOf (c :: cs) = true
    · left
      obtain ⟨post, hpost⟩ := List.isPrefixOf_iff_prefix.1 hp
      refine ⟨[], post, by simp [hpost], fun _ _ _ => by simp, ?_⟩
      simp only [replaceFirstChars, hp, if_true, List.nil_append]
      rw [← hpost, List.drop_left]
    · have hres : replaceFirstChars pat [] (c :: cs) = c :: replaceFirstChars pat [] cs := by
        simp [replaceFirstChars, hp]
      have hnot : ∀ post2 : List Char, c :: cs ≠ [] ++ pat ++ post2 := by
        intro post2 h
        apply hp
        rw [List.isPrefixOf_iff_prefix]
        exact ⟨post2, by simpa using h.symm⟩
      rcases ih with ⟨pre, post, hl, hmin, hr⟩ | ⟨hno, hr⟩
      · left
        refine ⟨c :: pre, post, by simp [hl], ?_, by simp [hres, hr]⟩
        intro pre2 post2 h2
        cases pre2 with
        | nil => exact absurd h2 (hnot post2)
        | cons d pre3 =>
          have h3 : cs = pre3 ++ pat ++ post2 := by
            simp only [List.cons_append, List.cons.injEq] at h2
            exact h2.2
          have := hmin pre3 post2 h3
          simp only [List.length_cons]
          omega
      · right
        refine ⟨?_, by rw [hres, hr]⟩
        intro pre2 post2 h2
        cases pre2 with
        | nil => exact hnot post2 h2
        | cons d pre3 =>
          have h3 : cs = pre3 ++ pat ++ post2 := by
            simp only [List.cons_append, List.cons.injEq] at h2
            exact h2.2
          exact hno pre3 post2 h3

theorem replaceFirst_firstOccurrenceRemoved (pat h : String) (hpat : pat ≠ "") :
    firstOccurrenceRemoved pat h (replaceFirst h pat "") := by
  have hp : pat.data ≠ [] := by
    intro hd
    apply hpat
    cases pat
    simp_all
  rcases replaceFirstChars_first pat.data hp h.data with ⟨pre, post, hl, hmin, hr⟩ | ⟨hno, hr⟩
  · left
    exact ⟨pre, post, hl, hmin, by simp [replaceFirst, hr]⟩
  · right
    refine ⟨hno, ?_⟩
    unfold replaceFirst
    show String.mk (replaceFirstChars pat.data [] h.data) = h
    rw [hr]

theorem authTry_missing_trace (penv : ProcessEnv) (env : Env) (req : Request)
    (h : strTruthy (extractToken req) = false) : (authTry penv env req).2 = [] := by
  unfold authTry
  cases ht : extractToken req with
  | none => rfl
  | some tok =>
    have : tok = "" := by simpa [ht, strTruthy] using h
    simp [this]

theorem protectedRoute_missing (controller : ServerState → Option Claims → Run)
    (penv : ProcessEnv) (env : Env) (st : ServerState) (req : Request)
    (h : strTruthy (extractToken req) = false) :
    protectedRoute controller penv env st req =
      { response := errorHandler penv
          (newAppError "Token not found" 401 (some "NO_TOKEN") "authMiddleware.js:17")
        state := st
        trace := [] } := by
  rw [protectedRoute_of_thrown controller penv env st req _ (authTry_missing penv env req h),
    authTry_missing_trace penv env req h]
  rfl

/-! ## C17: header token extraction -/

/-- C17. Header token extraction: for a request without a (non-empty) token cookie
and with `Authorization` header `h`, the token is `h` with only the first
occurrence of `Bearer ` removed, wherever it occurs, and this string, when not
empty, is what `jwt.verify` receives. Hence a header without any `Bearer ` is
verified as it stands, and a header equal to `Bearer `, like an absent header, is
answered 401 `NO_TOKEN` on both protected routes without any verification. -/
theorem header_token_extraction (penv : ProcessEnv) (env : Env) (st : ServerState)
    (req : Request) (h : String)
    (hc : strTruthy req.cookieToken = false) (ha : req.authorization = some h) :
    extractToken req = some (replaceFirst h "Bearer " "") ∧
    firstOccurrenceRemoved "Bearer " h (replaceFirst h "Bearer " "") ∧
    (replaceFirst h "Bearer " "" ≠ "" →
      authTry penv env req =
        (jwtVerify env.codec (replaceFirst h "Bearer " "") (config penv).JWT.SECRET req.now,
          [.verify (replaceFirst h "Bearer " "")])) ∧
    ((∀ pre post : List Char, h.data ≠ pre ++ "Bearer ".data ++ post) → h ≠ "" →
      authTry penv env req =
        (jwtVerify env.codec h (config penv).JWT.SECRET req.now, [.verify h])) ∧
    (h = "Bearer " →
      (meRoute penv env st req).response.status = 401 ∧
      (meRoute penv env st req).response.field "errorCode" = some (.val (.str "NO_TOKEN")) ∧
      (meRoute penv env st req).trace = [] ∧
      (logoutRoute penv env st req).response = (meRoute penv env st req).response ∧
      (logoutRoute penv env st req).trace = []) ∧
    (∀ r : Request, strTruthy r.cookieToken = false → r.authorization = none →
      (meRoute penv env st r).response.status = 401 ∧
      (meRoute penv env st r).response.field "errorCode" = some (.val (.str "NO_TOKEN")) ∧
      (meRoute penv env st r).trace = [] ∧
      (logoutRoute penv env st r).response = (meRoute penv env st r).response ∧
      (logoutRoute penv env st r).trace = []) := by
  have hx : extractToken req = some (replaceFirst h "Bearer " "") := by
    simp [extractToken, hc, ha]
  have hspec := replaceFirst_firstOccurrenceRemoved "Bearer " h (by decide)
  have hmissing : ∀ r : Request, strTruthy (extractToken r) = false →
      (meRoute penv env st r).response.status = 401 ∧
      (meRoute penv env st r).response.field "errorCode" = some (.val (.str "NO_TOKEN")) ∧
      (meRoute penv env st r).trace = [] ∧
      (logoutRoute penv env st r).response = (meRoute penv env st r).response ∧
      (logoutRoute penv env st r).trace = [] := by
    intro r hr
    unfold meRoute logoutRoute
    rw [protectedRoute_missing getUser penv env st r hr,
      protectedRoute_missing logout penv env st r hr]
    exact ⟨rfl, rfl, rfl, rfl, rfl⟩
  refine ⟨hx, hspec, ?_, ?_, ?_, ?_⟩
  · intro hne
    exact authTry_of_token penv env req _ hne hx
  · intro hno hne
    have hsame : replaceFirst h "Bearer " "" = h := by
      rcases hspec with ⟨pre, post, hl, _, _⟩ | ⟨_, hr⟩
      · exact absurd hl (hno pre post)
      · exact hr
    rw [hsame] at hx
    exact authTry_of_token penv env req h hne hx
  · intro hb
    apply hmissing
    rw [hx, hb]
    decide
  · intro r hrc hra
    apply hmissing
    have hn : extractToken r = none := by simp [extractToken, hrc, hra]
    rw [hn]
    rfl

/-- C17, on inputs: a bare token in the header is verified as it stands; the text
before and after the first `Bearer ` is kept and a second `Bearer ` stays; the
header `Bearer ` alone is answered `NO_TOKEN`. -/
theorem header_token_extraction_witness :
    authTry demoPenv demoEnv (demoHeaderReq "jwt.s3cret.1.5.1805.a@x.com" 6000) =
      (jwtVerify demoCodec "jwt.s3cret.1.5.1805.a@x.com" "s3cret" 6000,
        [.verify "jwt.s3cret.1.5.1805.a@x.com"]) ∧
    extractToken (demoHeaderReq "Token Bearer abcBearer d" 6000) = some "Token abcBearer d" ∧
    (meRoute demoPenv demoEnv demoState1 (demoHeaderReq "Bearer " 6000)).response.field
      "errorCode" = some (.val (.str "NO_TOKEN")) :=
  ⟨(header_token_extraction demoPenv demoEnv demoState1
      (demoHeaderReq "jwt.s3cret.1.5.1805.a@x.com" 6000) "jwt.s3cret.1.5.1805.a@x.com"
      rfl rfl).2.2.1 (by decide),
   (header_token_extraction demoPenv demoEnv demoState1
      (demoHeaderReq "Token Bearer abcBearer d" 6000) "Token Bearer abcBearer d" rfl rfl).1.trans
      (by decide),
   ((header_token_extraction demoPenv demoEnv demoState1 (demoHeaderReq "Bearer " 6000)
      "Bearer " rfl rfl).2.2.2.2.1 rfl).2.1⟩

end AuthSystem
